import Mathlib

/-!
# Krishi Sahayak front end: forms, route guards and data screens

A shallow embedding of the client-side logic of `frontend/src/pages/Auth.jsx`,
`frontend/src/App.jsx`, `frontend/src/components/AdminPanel.jsx`,
`frontend/src/components/Header.jsx` and the request handlers of
`CostCalculator.jsx` and `priceTracker.jsx`.

* A JavaScript string is the list of its UTF-16 code units (`JSString`), so
  `.length`, `!==`, `.trim()` and regular expressions without the `u` flag work
  on code units, as they do in the engine.
* A regular expression literal is a list of terms; matching follows the
  continuation-passing matcher semantics of ECMAScript (greedy quantifiers that
  give characters back on failure of the continuation).
* React state is threaded explicitly: `validate` returns the error object it
  passes to `setErrors` together with its boolean result, and `submit` maps the
  component state and the backend's answer to the next state.
* An asynchronous handler is run to completion against a backend that says how
  each request settles; what the handler does to the outside (requests, alerts,
  `setLoading` calls) is appended to a log carried in the state.
-/

namespace Kishan

/-! ## JavaScript strings -/

/-- A JavaScript string, as its sequence of UTF-16 code units. -/
abbrev JSString := List Nat

/-- UTF-16 code units of one Unicode scalar value. -/
def utf16Char (c : Char) : List Nat :=
  if c.toNat < 0x10000 then [c.toNat]
  else [0xD800 + (c.toNat - 0x10000) / 0x400, 0xDC00 + (c.toNat - 0x10000) % 0x400]

/-- The JavaScript string denoted by a source literal. -/
def js (s : String) : JSString := s.toList.flatMap utf16Char

/-- WhiteSpace and LineTerminator code units of ECMAScript: the characters
removed by `String.prototype.trim` and matched by the class `\s`. -/
def isWhiteSpace (c : Nat) : Bool :=
  c == 0x09 || c == 0x0A || c == 0x0B || c == 0x0C || c == 0x0D || c == 0x20 ||
  c == 0xA0 || c == 0x1680 || (0x2000 ≤ c && c ≤ 0x200A) || c == 0x2028 ||
  c == 0x2029 || c == 0x202F || c == 0x205F || c == 0x3000 || c == 0xFEFF

/-- Model of `String.prototype.trim`: strips white space at both ends. -/
def trim (s : JSString) : JSString :=
  ((s.dropWhile isWhiteSpace).reverse.dropWhile isWhiteSpace).reverse

/-- Truthiness of a string value: only the empty string is falsy. -/
def truthy (s : JSString) : Bool := !s.isEmpty

/-! ## Regular expressions -/

/-- Quantifier attached to an atom. -/
inductive Quant where
  | one
  | plus
  | exactly (n : Nat)

/-- One term of a pattern: an assertion or a quantified character class. -/
inductive Term where
  | bol
  | eol
  | atom (cls : Nat → Bool) (q : Quant)

/-- A pattern is a sequence of terms. -/
abbrev Pattern := List Term

/-- A matcher continuation: given the index reached and the remaining input,
decides whether the rest of the pattern matches. -/
abbrev Cont := Nat → List Nat → Bool

/-- Greedy `+`: the class consumes one unit, then as many more as it can, each
time falling back to the continuation. -/
def matchPlus (cls : Nat → Bool) (k : Cont) : Nat → List Nat → Bool
  | _, [] => false
  | i, c :: s => cls c && (matchPlus cls k (i + 1) s || k (i + 1) s)

/-- Bounded repetition `{n}`: exactly `n` units of the class. -/
def matchExactly (cls : Nat → Bool) (k : Cont) : Nat → Nat → List Nat → Bool
  | 0, i, s => k i s
  | _ + 1, _, [] => false
  | n + 1, i, c :: s => cls c && matchExactly cls k n (i + 1) s

/-- Matcher of a term, in continuation-passing style. Without the `m` flag
`^` holds only at index 0 and `$` only at the end of the input. -/
def Term.matcher : Term → Cont → Cont
  | .bol, k => fun i s => i == 0 && k i s
  | .eol, k => fun i s => s.isEmpty && k i s
  | .atom cls .one, k => matchExactly cls k 1
  | .atom cls .plus, k => matchPlus cls k
  | .atom cls (.exactly n), k => matchExactly cls k n

/-- Matcher of a whole pattern at a given index. -/
def Pattern.matcher (p : Pattern) : Cont :=
  p.foldr Term.matcher (fun _ _ => true)

/-- Search for a match starting at index `i` or at any later index. -/
def Pattern.searchFrom (p : Pattern) : Nat → List Nat → Bool
  | i, [] => p.matcher i []
  | i, c :: s => p.matcher i (c :: s) || Pattern.searchFrom p (i + 1) s

/-- Model of `RegExp.prototype.test` for a pattern without the `g`/`y` flags. -/
def Pattern.test (p : Pattern) (s : JSString) : Bool := p.searchFrom 0 s

/-- Class `\d`. -/
def isDigit (c : Nat) : Bool := 0x30 ≤ c && c ≤ 0x39

/-- Class `[6-9]`. -/
def isSixToNine (c : Nat) : Bool := 0x36 ≤ c && c ≤ 0x39

/-- Class `[^\s@]`. -/
def notSpaceAt (c : Nat) : Bool := !(isWhiteSpace c || c == 0x40)

/-- The literal `/^[6-9]\d{9}$/` of `validate`. -/
def phoneRe : Pattern :=
  [.bol, .atom isSixToNine .one, .atom isDigit (.exactly 9), .eol]

/-- The literal `/^[^\s@]+@[^\s@]+\.[^\s@]+$/` of `validate`. -/
def emailRe : Pattern :=
  [.bol, .atom notSpaceAt .plus, .atom (fun c => c == 0x40) .one,
   .atom notSpaceAt .plus, .atom (fun c => c == 0x2E) .one,
   .atom notSpaceAt .plus, .eol]

/-! ## `pages/Auth.jsx` -/

/-- The `mode` state of the Auth page: `'login' | 'signup'`. -/
inductive Mode where
  | login
  | signup
  deriving DecidableEq, Repr

/-- The `form` state of the Auth page. -/
structure Form where
  name : JSString
  email : JSString
  phone : JSString
  password : JSString
  confirmPassword : JSString
  location : JSString
  farmSize : JSString
  primaryCrops : List JSString
  deriving DecidableEq, Repr

/-- The initial `form` state. -/
def Form.initial : Form :=
  { name := [], email := [], phone := [], password := [], confirmPassword := [],
    location := [], farmSize := [], primaryCrops := [] }

/-- An error object: property names with their messages, in insertion order. -/
abbrev ErrorMap := List (String × JSString)

/-- Property assignment `e[k] = v`. -/
def ErrorMap.set : ErrorMap → String → JSString → ErrorMap
  | [], k, v => [(k, v)]
  | (k', v') :: e, k, v => if k' = k then (k, v) :: e else (k', v') :: ErrorMap.set e k v

/-- Property read `e[k]`; `none` is `undefined`. -/
def ErrorMap.get (e : ErrorMap) (k : String) : Option JSString :=
  (e.find? (fun kv => kv.1 = k)).map Prod.snd

/-- The keys of the object: `Object.keys(e)`. -/
def ErrorMap.keys (e : ErrorMap) : List String := e.map Prod.fst

/-- Line 57: `if (!form.name.trim()) e.name = 'Name required'`. -/
def checkName (form : Form) (e : ErrorMap) : ErrorMap :=
  if !truthy (trim form.name) then e.set "name" (js "Name required") else e

/-- Lines 58-59: the phone must be non-blank and match `/^[6-9]\d{9}$/`. -/
def checkPhone (form : Form) (e : ErrorMap) : ErrorMap :=
  if !truthy (trim form.phone) then e.set "phone" (js "Phone required")
  else if !phoneRe.test form.phone then e.set "phone" (js "Invalid phone")
  else e

/-- Line 60: `if (!form.location) e.location = 'State required'`. -/
def checkLocation (form : Form) (e : ErrorMap) : ErrorMap :=
  if !truthy form.location then e.set "location" (js "State required") else e

/-- Lines 61-62: `password !== confirmPassword`. -/
def checkConfirmPassword (form : Form) (e : ErrorMap) : ErrorMap :=
  if form.password ≠ form.confirmPassword then
    e.set "confirmPassword" (js "Passwords do not match")
  else e

/-- Lines 64-66: the email must be non-blank and match the email pattern. -/
def checkEmail (form : Form) (e : ErrorMap) : ErrorMap :=
  if !truthy (trim form.email) then e.set "email" (js "Email required")
  else if !emailRe.test form.email then e.set "email" (js "Invalid email")
  else e

/-- Lines 67-69: the password must be non-empty and at least 6 units long. -/
def checkPassword (form : Form) (e : ErrorMap) : ErrorMap :=
  if !truthy form.password then e.set "password" (js "Password required")
  else if form.password.length < 6 then e.set "password" (js "Min 6 characters")
  else e

/-- The signup block of `validate` (lines 56-63). -/
def validateSignup (form : Form) (e : ErrorMap) : ErrorMap :=
  checkConfirmPassword form (checkLocation form (checkPhone form (checkName form e)))

/-- The error object built by `validate` (the value passed to `setErrors`):
the checks run in source order on an initially empty object. -/
def validateErrors (mode : Mode) (form : Form) : ErrorMap :=
  let e : ErrorMap := []
  let e := if mode = .signup then validateSignup form e else e
  checkPassword form (checkEmail form e)

/-- The function `validate`: the new `errors` state and the returned boolean
`!Object.keys(e).length`. -/
def validate (mode : Mode) (form : Form) : ErrorMap × Bool :=
  let e := validateErrors mode form
  (e, e.keys.length == 0)

/-- A user record of the session; `role` is `none` when the property is absent. -/
structure User where
  role : Option JSString
  deriving DecidableEq, Repr

/-- A call to the auth service (`services/auth`), with its payload. -/
inductive Request where
  | login (email password : JSString)
  | signup (name email phone password location farmSize : JSString)
      (primaryCrops : List JSString)
  deriving DecidableEq, Repr

/-- The settlement of a request: the promise resolves with `res.data.user` and
`res.data.token`, or rejects with an error whose `response.data.message` may be
absent. -/
inductive Response where
  | resolved (user : User) (token : JSString)
  | rejected (message : Option JSString)
  deriving DecidableEq, Repr

/-- State of the Auth page together with what `submit` can touch outside the
component: the session user (`setUser`), the `token` entry of `localStorage`,
`window.location.href`, and the log of requests issued. -/
structure AuthPage where
  mode : Mode
  busy : Bool
  errors : ErrorMap
  form : Form
  user : Option User
  token : Option JSString
  href : Option String
  requests : List Request
  deriving DecidableEq, Repr

/-- The request built by `submit` for the current mode (lines 83-89). -/
def submitRequest (mode : Mode) (form : Form) : Request :=
  match mode with
  | .login => .login form.email form.password
  | .signup =>
    .signup form.name form.email form.phone form.password form.location
      form.farmSize form.primaryCrops

/-- The message shown on rejection:
`err.response?.data?.message || 'Authentication failed'`. -/
def submitMessage (message : Option JSString) : JSString :=
  match message with
  | some m => if truthy m then m else js "Authentication failed"
  | none => js "Authentication failed"

/-- The handler `submit`: validates, and only when `validate` returns true
issues one request and applies its settlement. -/
def submit (backend : Request → Response) (st : AuthPage) : AuthPage :=
  let v := validate st.mode st.form
  let st := { st with errors := v.1 }
  if !v.2 then st
  else
    let req := submitRequest st.mode st.form
    let st := { st with busy := true, requests := st.requests ++ [req] }
    match backend req with
    | .resolved user token =>
      { st with user := some user, token := some token, href := some "/dashboard",
                busy := false }
    | .rejected message =>
      { st with errors := [("submit", submitMessage message)], busy := false }

/-! ## `App.jsx` -/

/-- The value of `useAuth()` read by the route guards. -/
structure AuthContext where
  isAuthenticated : Bool
  user : Option User
  isLoading : Bool
  deriving DecidableEq, Repr

/-- What a guard returns: the loading spinner, a `<Navigate to=... replace />`
element, or its children. -/
inductive Outcome (α : Type) where
  | loadingSpinner
  | navigate (target : String)
  | children (c : α)
  deriving DecidableEq, Repr

/-- The expression `user?.role`. -/
def userRole (user : Option User) : Option JSString := user.bind User.role

/-- The component `ProtectedRoute` (lines 95-111). -/
def ProtectedRoute {α : Type} (ctx : AuthContext) (children : α)
    (adminOnly : Bool) : Outcome α :=
  if ctx.isLoading then .loadingSpinner
  else if !ctx.isAuthenticated then .navigate "/auth"
  else if adminOnly && userRole ctx.user ≠ some (js "admin") then .navigate "/dashboard"
  else .children children

/-- The component `PublicRoute` (lines 114-126). -/
def PublicRoute {α : Type} (ctx : AuthContext) (children : α) : Outcome α :=
  if ctx.isLoading then .loadingSpinner
  else if ctx.isAuthenticated then .navigate "/dashboard"
  else .children children

/-- The screens mounted by the route table. -/
inductive Screen where
  | Home | Auth | DashboardPage | Profile | PriceTracker | CropGuide
  | DiseaseDetector | CostCalculator | Chatbot | IoTPlaceholder | AdminPanel
  | NotFound
  deriving DecidableEq, Repr

/-- A `<Layout showHeader=... showFooter=...>` element around a screen. -/
structure Page where
  showHeader : Bool
  showFooter : Bool
  screen : Screen
  deriving DecidableEq, Repr

/-- The `element` of a route: a page, bare or wrapped in a guard. -/
inductive RouteElement where
  | bare (page : Page)
  | publicRoute (page : Page)
  | protectedRoute (adminOnly : Bool) (page : Page)
  deriving DecidableEq, Repr

/-- One `<Route path=... element=... />`. -/
structure Route where
  path : String
  element : RouteElement
  deriving DecidableEq, Repr

/-- The children of `<Routes>` in `AppContent`, in source order (lines 180-314). -/
def routes : List Route :=
  [ ⟨"/", .bare ⟨true, true, .Home⟩⟩,
    ⟨"/auth", .publicRoute ⟨false, false, .Auth⟩⟩,
    ⟨"/dashboard", .protectedRoute false ⟨true, true, .DashboardPage⟩⟩,
    ⟨"/profile", .protectedRoute false ⟨true, true, .Profile⟩⟩,
    ⟨"/prices", .bare ⟨true, true, .PriceTracker⟩⟩,
    ⟨"/crop-guide", .bare ⟨true, true, .CropGuide⟩⟩,
    ⟨"/disease-detection", .bare ⟨true, true, .DiseaseDetector⟩⟩,
    ⟨"/cost-calculator", .bare ⟨true, true, .CostCalculator⟩⟩,
    ⟨"/chatbot", .bare ⟨true, true, .Chatbot⟩⟩,
    ⟨"/iot", .bare ⟨true, true, .IoTPlaceholder⟩⟩,
    ⟨"/admin", .protectedRoute true ⟨true, true, .AdminPanel⟩⟩,
    ⟨"*", .bare ⟨true, true, .NotFound⟩⟩ ]

/-- Canonical code of a character under the `i` flag of a regular expression,
as far as the route paths need it: a Basic Latin small letter is identified
with its capital, and no other character is identified with a Basic Latin
one. -/
def foldCode (c : Char) : Nat :=
  if 97 ≤ c.toNat ∧ c.toNat ≤ 122 then c.toNat - 32 else c.toNat

/-- A line terminator, which `.` does not match. -/
def isLineTerminator (c : Char) : Bool :=
  c.toNat == 0x0A || c.toNat == 0x0D || c.toNat == 0x2028 || c.toNat == 0x2029

/-- The pattern source that the router's `compilePath` builds from a static
route path: trailing slashes removed, exactly one leading slash. -/
def normalizePath (path : String) : List Char :=
  '/' :: ((path.toList.reverse.dropWhile (fun c => c == '/')).reverse.dropWhile
    (fun c => c == '/'))

/-- Match of the regular expression `^<pattern>\/*$` with the `i` flag: the
pattern character by character up to letter case, then only slashes. -/
def matchFold : List Char → List Char → Bool
  | [], rest => rest.all (fun c => c == '/')
  | _ :: _, [] => false
  | p :: ps, c :: cs => foldCode p == foldCode c && matchFold ps cs

/-- The router's `matchPath` for a static route path (`end` true,
`caseSensitive` false, the defaults of `<Route>`). -/
def matchStatic (path pathname : String) : Bool :=
  matchFold (normalizePath path) pathname.toList

/-- The router's `matchPath` for the splat path `*`: the regular expression
`^/(.*)$` with the `i` flag. -/
def matchSplat (pathname : String) : Bool :=
  match pathname.toList with
  | '/' :: rest => rest.all (fun c => !isLineTerminator c)
  | _ => false

/-- Route selection of `<Routes>` (the router's `matchRoutes`) for a table of
static paths and a splat. `pathname` is the path of the location after the
router's URL decoding; the empty path counts as `/`. Routes are tried by rank,
and every static path outranks the splat `*`; without a match nothing is
rendered. -/
def matchRoutes (table : List Route) (pathname : String) : Option Route :=
  let pathname := if pathname = "" then "/" else pathname
  match table.find? (fun r => r.path ≠ "*" && matchStatic r.path pathname) with
  | some r => some r
  | none => table.find? (fun r => r.path = "*" && matchSplat pathname)

/-- Rendering of a route element: guard wrappers are evaluated against the
session. -/
def RouteElement.render (ctx : AuthContext) : RouteElement → Outcome Page
  | .bare page => .children page
  | .publicRoute page => PublicRoute ctx page
  | .protectedRoute adminOnly page => ProtectedRoute ctx page adminOnly

/-- The component `AppContent` at a location: the spinner while the session
loads, otherwise the matched route's element (`none`: no route matched). -/
def AppContent (ctx : AuthContext) (pathname : String) : Option (Outcome Page) :=
  if ctx.isLoading then some .loadingSpinner
  else (matchRoutes routes pathname).map (fun r => r.element.render ctx)

/-! ## Vocabulary of the specification -/

/-- The three states of the route guard. -/
inductive GuardState where
  | LOADING
  | AUTHENTICATED (role : Option JSString)
  | UNAUTHENTICATED
  deriving DecidableEq, Repr

/-- The guard state denoted by a session value: LOADING until the session
resolves, then AUTHENTICATED with the user's role or UNAUTHENTICATED. -/
def guardState (ctx : AuthContext) : GuardState :=
  if ctx.isLoading then .LOADING
  else if ctx.isAuthenticated then .AUTHENTICATED (userRole ctx.user)
  else .UNAUTHENTICATED

/-- Access levels of the route table. -/
inductive Access where
  | pub
  | publicOnly
  | protected_
  | adminOnly
  deriving DecidableEq, Repr

/-- The access level a route element stands for: its guard wrapper. -/
def RouteElement.access : RouteElement → Access
  | .bare _ => .pub
  | .publicRoute _ => .publicOnly
  | .protectedRoute false _ => .protected_
  | .protectedRoute true _ => .adminOnly

/-- The screen inside a route element. -/
def RouteElement.screen : RouteElement → Screen
  | .bare p => p.screen
  | .publicRoute p => p.screen
  | .protectedRoute _ p => p.screen

/-- A location is the same path as a route path up to letter case and trailing
slashes: it is the route path, each letter in either case, followed by any
number of slashes. -/
def SamePath (path pathname : String) : Prop :=
  ∃ body n, pathname.toList = body ++ List.replicate n '/' ∧
    body.map foldCode = path.toList.map foldCode

/-- A string matches `^[^\s@]+@[^\s@]+\.[^\s@]+$` when it splits as
`a @ b . c` with `a`, `b`, `c` non-empty and free of white space and `@`. -/
def MatchesEmailPattern (s : JSString) : Prop :=
  ∃ a b c : JSString, s = a ++ 0x40 :: (b ++ 0x2E :: c) ∧
    a ≠ [] ∧ b ≠ [] ∧ c ≠ [] ∧
    (∀ x ∈ a, notSpaceAt x = true) ∧ (∀ x ∈ b, notSpaceAt x = true) ∧
    (∀ x ∈ c, notSpaceAt x = true)

/-- A string of ten decimal digits whose first digit is 6, 7, 8 or 9. -/
def IsIndianMobile (s : JSString) : Prop :=
  s.length = 10 ∧ (∀ x ∈ s, isDigit x = true) ∧ ∃ d, s.head? = some d ∧ 0x36 ≤ d ∧ d ≤ 0x39


/-! ## Concrete values used in examples -/

/-- The Auth page as first mounted in a given mode: empty form, no errors, no
session, nothing requested yet. -/
def AuthPage.initial (mode : Mode) : AuthPage :=
  { mode := mode, busy := false, errors := [], form := Form.initial, user := none,
    token := none, href := none, requests := [] }

/-- A backend that accepts every request. -/
def acceptAll : Request → Response :=
  fun _ => .resolved ⟨some (js "user")⟩ (js "tok")

/-- A session that is still loading. -/
def loadingSession : AuthContext := ⟨false, none, true⟩

/-- A resolved session without a user. -/
def anonymousSession : AuthContext := ⟨false, none, false⟩

/-- A resolved session of a user with role `user`. -/
def farmerSession : AuthContext := ⟨true, some ⟨some (js "user")⟩, false⟩

/-- A resolved session of a user with role `admin`. -/
def adminSession : AuthContext := ⟨true, some ⟨some (js "admin")⟩, false⟩

/-! ## JavaScript values and records -/

/-- A JavaScript value held in a record field. An `object` stands for any
non-primitive (array, plain object, date): `ref` is its identity and `str` the
result of its `toString()`. Numbers are the integers. -/
inductive JSValue where
  | undefined
  | null
  | bool (b : Bool)
  | number (n : Int)
  | string (s : JSString)
  | object (ref : Nat) (str : JSString)
  deriving DecidableEq, Repr

/-- Built-ins of the JavaScript engine that the components call and the
repository does not define. -/
structure Engine where
  toLowerCase : JSString → JSString
  numberToString : Int → JSString

/-- An exception thrown by the engine. -/
inductive JSError where
  | typeError
  deriving DecidableEq, Repr

/-- Strict equality `===`; objects are equal when they are the same object. -/
def JSValue.strictEq : JSValue → JSValue → Bool
  | .undefined, .undefined => true
  | .null, .null => true
  | .bool a, .bool b => a == b
  | .number a, .number b => a == b
  | .string a, .string b => a == b
  | .object r _, .object r2 _ => r == r2
  | _, _ => false

/-- The method call `value.toString()`: reading a property of `undefined` or
`null` throws a TypeError. -/
def JSValue.toString (eng : Engine) : JSValue → Except JSError JSString
  | .undefined => .error .typeError
  | .null => .error .typeError
  | .bool true => .ok (js "true")
  | .bool false => .ok (js "false")
  | .number n => .ok (eng.numberToString n)
  | .string s => .ok s
  | .object _ str => .ok str

/-- Model of `String.prototype.includes`: `sub` occurs in `s` as a contiguous
run of code units. -/
def includes (s sub : JSString) : Bool :=
  s.tails.any (fun t => sub.isPrefixOf t)

/-- A record fetched from the backend: its own enumerable properties, in
order. -/
abbrev Record := List (String × JSValue)

/-- Property read `item[k]`; an absent property reads `undefined`. -/
def Record.get (r : Record) (k : String) : JSValue :=
  match r.find? (fun kv => kv.1 = k) with
  | some kv => kv.2
  | none => .undefined

/-- The call `Object.values(item)`. -/
def Record.values (r : Record) : List JSValue := r.map Prod.snd

/-- The settlement of a promise returned by the API layer: it resolves with a
response whose `data` is given, or rejects. -/
inductive ApiResult (α : Type) where
  | resolved (data : α)
  | rejected
  deriving DecidableEq, Repr

/-- What a handler does to the outside, in order: a `setLoading` call, a
request to the API layer, a `console.error` with its label, a `window.alert`. -/
inductive Event (κ : Type) where
  | setLoading (b : Bool)
  | request (call : κ)
  | consoleError (label : JSString)
  | alert (message : JSString)
  deriving DecidableEq, Repr

/-- The requests recorded in a log, in order. -/
def requestsOf {κ : Type} (log : List (Event κ)) : List κ :=
  log.filterMap (fun e => match e with | .request c => some c | _ => none)

/-- The alerts recorded in a log, in order. -/
def alertsOf {κ : Type} (log : List (Event κ)) : List JSString :=
  log.filterMap (fun e => match e with | .alert m => some m | _ => none)

/-! ## `components/AdminPanel.jsx` -/

/-- The tab ids of `tabs`; `activeTab` is always one of them. -/
inductive Tab where
  | dashboard
  | crops
  | diseases
  | costTemplates
  | users
  | settings
  deriving DecidableEq, Repr

/-- The `id` of a tab (lines 47-54). -/
def Tab.id : Tab → String
  | .dashboard => "dashboard"
  | .crops => "crops"
  | .diseases => "diseases"
  | .costTemplates => "cost-templates"
  | .users => "users"
  | .settings => "settings"

/-- The three kinds of record managed by the panel. -/
inductive Entity where
  | crop
  | disease
  | costTemplate
  deriving DecidableEq, Repr

/-- The `data` state (lines 34-39). -/
structure AdminData where
  crops : List Record
  diseases : List Record
  costTemplates : List Record
  analytics : JSValue
  deriving DecidableEq, Repr

/-- The list of the data state holding an entity: `crops`, `diseases` or
`costTemplates`. -/
def AdminData.list (d : AdminData) : Entity → List Record
  | .crop => d.crops
  | .disease => d.diseases
  | .costTemplate => d.costTemplates

/-- The update `{ ...prev, <list of the entity>: l }`. -/
def AdminData.setList (d : AdminData) : Entity → List Record → AdminData
  | .crop, l => { d with crops := l }
  | .disease, l => { d with diseases := l }
  | .costTemplate, l => { d with costTemplates := l }

/-- The read `data[key]` for a key that is a tab id: the lists are stored under
`crops`, `diseases` and `costTemplates`; any other tab id is not a property
(`none` is `undefined`). -/
def AdminData.prop (d : AdminData) (key : String) : Option (List Record) :=
  if key = "crops" then some d.crops
  else if key = "diseases" then some d.diseases
  else if key = "costTemplates" then some d.costTemplates
  else none

/-- A call to `services/api`: `getAll` is `getCrops` / `getDiseases` /
`getCostTemplates`, `create` is `createCrop` / ..., `update` is `updateCrop` /
..., `delete` is `deleteCrop` / ..., according to the entity. -/
inductive ApiCall where
  | getUserAnalytics
  | getAll (e : Entity)
  | create (e : Entity) (data : Record)
  | update (e : Entity) (id : JSValue) (data : Record)
  | delete (e : Entity) (id : JSValue)
  deriving DecidableEq, Repr

/-- The backend behind `services/api`: how each call settles. -/
structure Api where
  getUserAnalytics : ApiResult JSValue
  getAll : Entity → ApiResult (List Record)
  create : Entity → Record → ApiResult Record
  update : Entity → JSValue → Record → ApiResult Record
  delete : Entity → JSValue → ApiResult Unit

/-- The `modalType` state: `'create'` or `'edit'`. -/
inductive ModalType where
  | create
  | edit
  deriving DecidableEq, Repr

/-- State of the admin panel (lines 33-45) with the log of its effects. -/
structure AdminState where
  activeTab : Tab
  data : AdminData
  loading : Bool
  searchQuery : JSString
  showModal : Bool
  modalType : ModalType
  selectedItem : Option Record
  formData : Record
  log : List (Event ApiCall)
  deriving DecidableEq, Repr

/-- Appends an effect to the log. -/
def AdminState.emit (st : AdminState) (e : Event ApiCall) : AdminState :=
  { st with log := st.log ++ [e] }

/-- The call `setLoading(b)`. -/
def AdminState.setLoading (st : AdminState) (b : Bool) : AdminState :=
  { st with loading := b, log := st.log ++ [.setLoading b] }

/-- The `try` block of `fetchData` (lines 63-82): `.error` is the state in
which the awaited request rejected. -/
def fetchDataTry (api : Api) (st : AdminState) : Except AdminState AdminState :=
  if st.activeTab.id = "dashboard" then
    let st := st.emit (.request .getUserAnalytics)
    match api.getUserAnalytics with
    | .resolved a => .ok { st with data := { st.data with analytics := a } }
    | .rejected => .error st
  else if st.activeTab.id = "crops" then
    let st := st.emit (.request (.getAll .crop))
    match api.getAll .crop with
    | .resolved l => .ok { st with data := { st.data with crops := l } }
    | .rejected => .error st
  else if st.activeTab.id = "diseases" then
    let st := st.emit (.request (.getAll .disease))
    match api.getAll .disease with
    | .resolved l => .ok { st with data := { st.data with diseases := l } }
    | .rejected => .error st
  else if st.activeTab.id = "cost-templates" then
    let st := st.emit (.request (.getAll .costTemplate))
    match api.getAll .costTemplate with
    | .resolved l => .ok { st with data := { st.data with costTemplates := l } }
    | .rejected => .error st
  else .ok st

/-- The function `fetchData` (lines 60-88). -/
def fetchData (api : Api) (st : AdminState) : AdminState :=
  let st := st.setLoading true
  let st :=
    match fetchDataTry api st with
    | .ok st => st
    | .error st => st.emit (.consoleError (js "Data fetch error:"))
  st.setLoading false

/-- The function `handleCreate` (lines 90-95). -/
def handleCreate (st : AdminState) : AdminState :=
  { st with modalType := .create, selectedItem := none, formData := [], showModal := true }

/-- The function `handleEdit` (lines 97-102). -/
def handleEdit (item : Record) (st : AdminState) : AdminState :=
  { st with modalType := .edit, selectedItem := some item, formData := item,
            showModal := true }

/-- The entity deleted by a `case` label of the `switch (type)` in
`handleDelete` (lines 108-130); other values match no case. -/
def deleteCase (type : String) : Option Entity :=
  if type = "crop" then some .crop
  else if type = "disease" then some .disease
  else if type = "template" then some .costTemplate
  else none

/-- The function `handleDelete` (lines 104-135); `confirmed` is the answer to
the `window.confirm` dialog. -/
def handleDelete (api : Api) (confirmed : Bool) (id : JSValue) (type : String)
    (st : AdminState) : AdminState :=
  if !confirmed then st
  else
    match deleteCase type with
    | none => st
    | some e =>
      let st := st.emit (.request (.delete e id))
      match api.delete e id with
      | .resolved _ =>
        { st with data := (st.data.setList e
            ((st.data.list e).filter (fun item => !(item.get "_id").strictEq id))) }
      | .rejected =>
        (st.emit (.consoleError (js "Delete error:"))).emit
          (.alert (js "Failed to delete item"))

/-- The click handler of a row's delete button in `renderDataTable(type)`,
which `AdminPanel` calls with `activeTab` (lines 402-407 and 590). -/
def clickDelete (api : Api) (confirmed : Bool) (item : Record) (st : AdminState) :
    AdminState :=
  handleDelete api confirmed (item.get "_id") st.activeTab.id st

/-- One `case` of the `switch (activeTab)` in `handleSubmit` (lines 144-193),
for the entity of the tab: `.error` is the state in which an exception was
thrown (a rejected request, or `selectedItem._id` on a null `selectedItem`). -/
def submitCase (api : Api) (e : Entity) (st : AdminState) : Except AdminState AdminState :=
  match st.modalType with
  | .create =>
    let st := st.emit (.request (.create e st.formData))
    match api.create e st.formData with
    | .resolved r => .ok { st with data := st.data.setList e (st.data.list e ++ [r]) }
    | .rejected => .error st
  | .edit =>
    match st.selectedItem with
    | none => .error st
    | some sel =>
      let st := st.emit (.request (.update e (sel.get "_id") st.formData))
      match api.update e (sel.get "_id") st.formData with
      | .resolved r =>
        .ok { st with data := (st.data.setList e
                ((st.data.list e).map
                  (fun item => if (item.get "_id").strictEq (sel.get "_id") then r else item))) }
      | .rejected => .error st

/-- The `try` block of `handleSubmit` (lines 142-197). -/
def handleSubmitTry (api : Api) (st : AdminState) : Except AdminState AdminState :=
  let r :=
    if st.activeTab.id = "crops" then submitCase api .crop st
    else if st.activeTab.id = "diseases" then submitCase api .disease st
    else if st.activeTab.id = "cost-templates" then submitCase api .costTemplate st
    else .ok st
  match r with
  | .ok st => .ok { st with showModal := false, formData := [] }
  | .error st => .error st

/-- The function `handleSubmit` (lines 137-204). -/
def handleSubmit (api : Api) (st : AdminState) : AdminState :=
  let st := st.setLoading true
  let st :=
    match handleSubmitTry api st with
    | .ok st => st
    | .error st =>
      (st.emit (.consoleError (js "Submit error:"))).emit (.alert (js "Failed to save item"))
  st.setLoading false

/-- Whether a field value matches the query (line 212); throws when the value
is `undefined` or `null`. -/
def valueMatches (eng : Engine) (query : JSString) (value : JSValue) :
    Except JSError Bool :=
  match value.toString eng with
  | .ok s => .ok (includes (eng.toLowerCase s) (eng.toLowerCase query))
  | .error err => .error err

/-- The call `values.some(value => ...)`: values are tried in order and the
first match ends the search; an exception in the callback propagates. -/
def someValue (eng : Engine) (query : JSString) : List JSValue → Except JSError Bool
  | [] => .ok false
  | v :: vs =>
    match valueMatches eng query v with
    | .ok true => .ok true
    | .ok false => someValue eng query vs
    | .error err => .error err

/-- The call `currentData.filter(item => ...)`: items are tested in order; an
exception in the callback propagates. -/
def filterItems (eng : Engine) (query : JSString) : List Record → Except JSError (List Record)
  | [] => .ok []
  | item :: items =>
    match someValue eng query item.values with
    | .ok keep =>
      match filterItems eng query items with
      | .ok rest => .ok (if keep then item :: rest else rest)
      | .error err => .error err
    | .error err => .error err

/-- The function `filteredData` (lines 206-215). -/
def filteredData (eng : Engine) (st : AdminState) : Except JSError (List Record) :=
  let currentData := (st.data.prop st.activeTab.id).getD []
  if !truthy st.searchQuery then .ok currentData
  else filterItems eng st.searchQuery currentData

/-! ## `components/CostCalculator.jsx` (MarketIntelligence) -/

/-- A call to `services/agmarknet`, with its argument object. -/
inductive MarketCall where
  | getMarketPrices (crop state : JSString)
  | getPriceTrends (crop state : JSString) (days : Nat)
  | getOptimalSellingTime (crop state : JSString)
  deriving DecidableEq, Repr

/-- State of `MarketIntelligence` read or written by `searchCropPrices`
(lines 20-25), with the log of its effects. -/
structure MarketState where
  selectedCrop : JSString
  selectedState : JSString
  marketData : JSValue
  priceHistory : JSValue
  sellingRecommendation : JSValue
  loading : Bool
  log : List (Event MarketCall)
  deriving DecidableEq, Repr

/-- Appends an effect to the log. -/
def MarketState.emit (st : MarketState) (e : Event MarketCall) : MarketState :=
  { st with log := st.log ++ [e] }

/-- The call `setLoading(b)`. -/
def MarketState.setLoading (st : MarketState) (b : Bool) : MarketState :=
  { st with loading := b, log := st.log ++ [.setLoading b] }

/-- The `try` block of `searchCropPrices` (lines 42-63): the three requests are
awaited one after the other, and the three setters run after the last. -/
def searchCropPricesTry (api : MarketCall → ApiResult JSValue) (st : MarketState) :
    Except MarketState MarketState :=
  let c1 := MarketCall.getMarketPrices st.selectedCrop st.selectedState
  let c2 := MarketCall.getPriceTrends st.selectedCrop st.selectedState 30
  let c3 := MarketCall.getOptimalSellingTime st.selectedCrop st.selectedState
  let st := st.emit (.request c1)
  match api c1 with
  | .rejected => .error st
  | .resolved price =>
    let st := st.emit (.request c2)
    match api c2 with
    | .rejected => .error st
    | .resolved trends =>
      let st := st.emit (.request c3)
      match api c3 with
      | .rejected => .error st
      | .resolved recommendation =>
        .ok { st with marketData := price, priceHistory := trends,
                      sellingRecommendation := recommendation }

/-- The function `searchCropPrices` (lines 39-69). -/
def searchCropPrices (api : MarketCall → ApiResult JSValue) (st : MarketState) :
    MarketState :=
  let st := st.setLoading true
  let st :=
    match searchCropPricesTry api st with
    | .ok st => st
    | .error st => st.emit (.consoleError (js "Market data fetch error:"))
  st.setLoading false

/-! ## `components/priceTracker.jsx` -/

/-- A call to `services/api` made by the price tracker. -/
inductive PriceCall where
  | getPrices (crop location : JSString)
  | getPriceHistory (crop location : JSString)
  | getForecast (crop location : JSString)
  deriving DecidableEq, Repr

/-- State of `PriceTracker` read or written by `fetchPriceData` (lines 18-23),
with the log of its effects. -/
structure PriceState where
  selectedCrop : JSString
  selectedLocation : JSString
  currentPrices : JSValue
  priceHistory : JSValue
  forecast : JSValue
  loading : Bool
  log : List (Event PriceCall)
  deriving DecidableEq, Repr

/-- Appends an effect to the log. -/
def PriceState.emit (st : PriceState) (e : Event PriceCall) : PriceState :=
  { st with log := st.log ++ [e] }

/-- The call `setLoading(b)`. -/
def PriceState.setLoading (st : PriceState) (b : Bool) : PriceState :=
  { st with loading := b, log := st.log ++ [.setLoading b] }

/-- The `try` block of `fetchPriceData` (lines 49-57): the three requests are
issued together and `Promise.all` rejects as soon as one of them does. -/
def fetchPriceDataTry (api : PriceCall → ApiResult JSValue) (st : PriceState) :
    Except PriceState PriceState :=
  let c1 := PriceCall.getPrices st.selectedCrop st.selectedLocation
  let c2 := PriceCall.getPriceHistory st.selectedCrop st.selectedLocation
  let c3 := PriceCall.getForecast st.selectedCrop st.selectedLocation
  let st := ((st.emit (.request c1)).emit (.request c2)).emit (.request c3)
  match api c1, api c2, api c3 with
  | .resolved prices, .resolved history, .resolved forecast =>
    .ok { st with currentPrices := prices, priceHistory := history, forecast := forecast }
  | _, _, _ => .error st

/-- The function `fetchPriceData` (lines 46-63). -/
def fetchPriceData (api : PriceCall → ApiResult JSValue) (st : PriceState) : PriceState :=
  let st := st.setLoading true
  let st :=
    match fetchPriceDataTry api st with
    | .ok st => st
    | .error st => st.emit (.consoleError (js "Price data fetch error:"))
  st.setLoading false

/-! ## Further concrete values -/

/-- An engine for examples: lower-casing of the Basic Latin letters and decimal
printing of integers. -/
def asciiEngine : Engine where
  toLowerCase := fun s => s.map (fun c => if 0x41 ≤ c ∧ c ≤ 0x5A then c + 0x20 else c)
  numberToString := fun n =>
    if n < 0 then 0x2D :: (Nat.toDigits 10 n.natAbs).map Char.toNat
    else (Nat.toDigits 10 n.natAbs).map Char.toNat

/-- A backend that resolves every call, echoing the submitted record. -/
def echoApi : Api where
  getUserAnalytics := .resolved .null
  getAll := fun _ => .resolved []
  create := fun _ data => .resolved data
  update := fun _ _ data => .resolved data
  delete := fun _ _ => .resolved ()

/-- A backend that rejects every call. -/
def downApi : Api where
  getUserAnalytics := .rejected
  getAll := fun _ => .rejected
  create := fun _ _ => .rejected
  update := fun _ _ _ => .rejected
  delete := fun _ _ => .rejected

/-- A crop record named Wheat. -/
def wheat : Record := [("_id", .string (js "c1")), ("name", .string (js "Wheat"))]

/-- A crop record named Rice. -/
def rice : Record := [("_id", .string (js "c2")), ("name", .string (js "Rice"))]

/-- The admin panel on a given tab, holding the two crops in every list. -/
def adminWith (tab : Tab) : AdminState :=
  { activeTab := tab,
    data := { crops := [wheat, rice], diseases := [wheat, rice],
              costTemplates := [wheat, rice], analytics := .null },
    loading := false, searchQuery := [], showModal := false, modalType := .create,
    selectedItem := none, formData := [], log := [] }

/-- The market screen as first mounted for a user without a location. -/
def marketStart : MarketState :=
  { selectedCrop := js "wheat", selectedState := js "Delhi", marketData := .null,
    priceHistory := .object 0 [], sellingRecommendation := .null, loading := false,
    log := [] }

/-- The price tracker as first mounted for a user without a location. -/
def priceStart : PriceState :=
  { selectedCrop := js "wheat", selectedLocation := js "Delhi",
    currentPrices := .object 0 [], priceHistory := .object 1 [], forecast := .object 2 [],
    loading := false, log := [] }

/-- A backend that rejects every login and signup with a message. -/
def rejectAll : Request → Response :=
  fun _ => .rejected (some (js "Invalid credentials"))

/-- The login page filled with a well-formed email and password. -/
def loginFilled : AuthPage :=
  { AuthPage.initial .login with
    form := { Form.initial with email := js "a@b.c", password := js "abc123" } }

/-! ## `components/Header.jsx` -/

/-- The session store behind `useAuth()`, as far as the header touches it: the
current user and the entries of the client storage. -/
structure SessionStore where
  user : Option User
  storage : List (String × JSString)
  deriving DecidableEq, Repr

/-- Modelled from the spec: the `logout()` of the session store
(`context/AppContext`, which is not among the sources). On logout the session
is cleared and the client storage is cleared. -/
def logout (s : SessionStore) : SessionStore :=
  { s with user := none, storage := [] }

/-- State of the header (lines 32-36) with `window.location.href`. -/
structure HeaderState where
  session : SessionStore
  mobileMenuOpen : Bool
  languageOpen : Bool
  profileOpen : Bool
  href : Option String
  deriving DecidableEq, Repr

/-- The function `handleLogout` (lines 72-76), for the `logout` obtained from
`useAuth()`. -/
def handleLogout (logoutFn : SessionStore → SessionStore) (st : HeaderState) : HeaderState :=
  { st with session := logoutFn st.session, profileOpen := false, href := some "/" }

/-- The `href` of each entry of `navItems` (lines 11-18); the Prices entry is
commented out. -/
def navItems : List String :=
  ["/dashboard", "/crop-guide", "/disease-detection", "/cost-calculator", "/chatbot"]

/-- The `href` of every anchor rendered by `Header`: the navigation items, the
three entries of the profile menu, and the Login and Sign Up links. -/
def headerLinks : List String :=
  navItems ++ ["/profile", "/favorites", "/history", "/auth", "/auth?mode=signup"]

/-- The path of a same-origin link target: the part before the query string or
the fragment. -/
def pathnameOf (href : String) : String :=
  String.mk (href.toList.takeWhile (fun c => c ≠ '?' ∧ c ≠ '#'))

/-- The screen the route table shows at the path of a link target. -/
def screenAt (href : String) : Option Screen :=
  (matchRoutes routes (pathnameOf href)).map (fun r => r.element.screen)

/-! ## `pages/Auth.jsx`: mounting and field changes -/

/-- The Auth page when it mounts at a URL: `mode` starts as `'login'`
(line 29) and the form is empty (lines 33-36); the URL is not read. -/
def mountAuth (_href : String) : AuthPage :=
  { mode := .login, busy := false, errors := [], form := Form.initial, user := none,
    token := none, href := none, requests := [] }

/-- The `e.target` of a change event. The crop checkboxes carry no `name`
attribute, so their events have the empty name. -/
structure ChangeEvent where
  name : String
  value : JSString
  type : String
  checked : Bool
  deriving DecidableEq, Repr

/-- The update `{ ...p, [name]: value }` for the name of a text or select input
of the form. -/
def Form.setField (form : Form) (name : String) (value : JSString) : Form :=
  if name = "name" then { form with name := value }
  else if name = "email" then { form with email := value }
  else if name = "phone" then { form with phone := value }
  else if name = "password" then { form with password := value }
  else if name = "confirmPassword" then { form with confirmPassword := value }
  else if name = "location" then { form with location := value }
  else if name = "farmSize" then { form with farmSize := value }
  else form

/-- The handler `onChange` (lines 39-51). -/
def onChange (ev : ChangeEvent) (st : AuthPage) : AuthPage :=
  let form :=
    if ev.type = "checkbox" then
      { st.form with
        primaryCrops :=
          if ev.checked then st.form.primaryCrops ++ [ev.value]
          else st.form.primaryCrops.filter (fun c => c ≠ ev.value) }
    else st.form.setField ev.name ev.value
  let errors :=
    match st.errors.get ev.name with
    | some m => if truthy m then st.errors.set ev.name [] else st.errors
    | none => st.errors
  { st with form := form, errors := errors }

/-- A sequence of change events, handled in order. -/
def onChanges : List ChangeEvent → AuthPage → AuthPage
  | [], st => st
  | ev :: evs, st => onChanges evs (onChange ev st)

/-! ## `components/CostCalculator.jsx`: quick access -/

/-- The `value` of each entry of `popularCrops` (lines 29-36). -/
def popularCrops : List JSString :=
  [js "wheat", js "rice", js "onion", js "tomato", js "potato", js "cotton"]

/-- The click handler of a popular-crop button (lines 415-418):
`setSelectedCrop(crop.value)` schedules the new crop for the next render, and
`searchCropPrices()` is the function of the current render, which reads the
`selectedCrop` of that render. -/
def clickPopularCrop (api : MarketCall → ApiResult JSValue) (value : JSString)
    (st : MarketState) : MarketState :=
  { searchCropPrices api st with selectedCrop := value }

/-! ## Values for the later examples -/

/-- A header with a signed-in user, a stored token and the profile menu open. -/
def headerSignedIn : HeaderState :=
  { session := { user := some ⟨some (js "user")⟩, storage := [("token", js "tok")] },
    mobileMenuOpen := false, languageOpen := false, profileOpen := true, href := none }

/-- A market backend that resolves every call with `true`. -/
def marketUp : MarketCall → ApiResult JSValue := fun _ => .resolved (.bool true)

/-- The change event of checking or unchecking the box of a crop. -/
def cropBox (crop : String) (checked : Bool) : ChangeEvent :=
  { name := "", value := js crop, type := "checkbox", checked := checked }

/-- A crop whose `scientificName` is present and `null`. -/
def wheatNoScience : Record :=
  [("_id", .string (js "c1")), ("name", .string (js "Wheat")), ("scientificName", .null)]

/-- A backend that resolves every list read with the single record Wheat. -/
def wheatApi : Api where
  getUserAnalytics := .resolved .null
  getAll := fun _ => .resolved [wheat]
  create := fun _ data => .resolved data
  update := fun _ _ data => .resolved data
  delete := fun _ _ => .resolved ()

/-- The admin panel as first mounted, switched to a given tab. -/
def adminEmpty (tab : Tab) : AdminState :=
  { activeTab := tab,
    data := { crops := [], diseases := [], costTemplates := [], analytics := .null },
    loading := false, searchQuery := [], showModal := false, modalType := .create,
    selectedItem := none, formData := [], log := [] }

/-! ## Further vocabulary of the specification -/

/-- The tab on which an entity is managed. -/
def Entity.tab : Entity → Tab
  | .crop => .crops
  | .disease => .diseases
  | .costTemplate => .costTemplates

/-- The read request issued by `fetchData` on a tab rejects; the users and
settings tabs issue none. -/
def Api.readRejects (api : Api) : Tab → Prop
  | .dashboard => api.getUserAnalytics = .rejected
  | .crops => api.getAll .crop = .rejected
  | .diseases => api.getAll .disease = .rejected
  | .costTemplates => api.getAll .costTemplate = .rejected
  | .users => False
  | .settings => False

/-- A record none of whose field values is `undefined` or `null`. -/
def Record.Defined (r : Record) : Prop :=
  ∀ v ∈ r.values, v ≠ .undefined ∧ v ≠ .null

/-- Some field value of the item, turned into a string and lower-cased,
contains the lower-cased query. -/
def matchesQuery (eng : Engine) (query : JSString) (item : Record) : Bool :=
  item.values.any (fun v =>
    match v.toString eng with
    | .ok s => includes (eng.toLowerCase s) (eng.toLowerCase query)
    | .error _ => false)

/-- The `type` argument that names an entity in `handleDelete`. -/
def Entity.deleteType : Entity → String
  | .crop => "crop"
  | .disease => "disease"
  | .costTemplate => "template"

/-- A sequence of checkbox events that a user can produce from a state: every
event is a checkbox event, a box is checked only when its crop is not in
`primaryCrops` and unchecked only when it is. -/
def admissible : List ChangeEvent → AuthPage → Bool
  | [], _ => true
  | ev :: evs, st =>
    decide (ev.type = "checkbox") &&
    (if ev.checked then decide (ev.value ∉ st.form.primaryCrops)
     else decide (ev.value ∈ st.form.primaryCrops)) &&
    admissible evs (onChange ev st)

/-- A log extends an earlier one by a `setLoading(true)`, then events none of
which is a `setLoading`, then a `setLoading(false)`. -/
def LoadingBracket {κ : Type} (before after : List (Event κ)) : Prop :=
  ∃ mid, after = before ++ .setLoading true :: (mid ++ [.setLoading false]) ∧
    ∀ b, Event.setLoading b ∉ mid

/-! ## Lemmas on the matcher -/

theorem matchPlus_iff (cls : Nat → Bool) (k : Cont) (s : List Nat) (i : Nat) :
    matchPlus cls k i s = true ↔
      ∃ a r, a ≠ [] ∧ s = a ++ r ∧ (∀ x ∈ a, cls x = true) ∧ k (i + a.length) r = true := by
  induction s generalizing i with
  | nil =>
    simp only [matchPlus, Bool.false_eq_true, false_iff]
    rintro ⟨a, r, ha, hs, -⟩
    cases a with
    | nil => exact ha rfl
    | cons x a => simp at hs
  | cons c s ih =>
    simp only [matchPlus, Bool.and_eq_true, Bool.or_eq_true, ih]
    constructor
    · rintro ⟨hc, h | h⟩
      · obtain ⟨a, r, -, hs, hall, hk⟩ := h
        refine ⟨c :: a, r, by simp, by simp [hs], ?_, ?_⟩
        · intro x hx
          rcases List.mem_cons.mp hx with rfl | hx
          · exact hc
          · exact hall x hx
        · simpa [Nat.add_assoc, Nat.add_comm 1] using hk
      · exact ⟨[c], s, by simp, by simp, by simpa using hc, by simpa using h⟩
    · rintro ⟨a, r, ha, hs, hall, hk⟩
      cases a with
      | nil => exact absurd rfl ha
      | cons x a =>
        simp only [List.cons_append, List.cons.injEq] at hs
        obtain ⟨rfl, rfl⟩ := hs
        refine ⟨hall c (by simp), ?_⟩
        cases a with
        | nil => right; simpa using hk
        | cons y a =>
          left
          refine ⟨y :: a, r, by simp, rfl, fun z hz => hall z (by simp [List.mem_cons.mp hz]), ?_⟩
          simpa [Nat.add_assoc, Nat.add_comm 1] using hk

theorem matchExactly_iff (cls : Nat → Bool) (k : Cont) (n : Nat) (s : List Nat) (i : Nat) :
    matchExactly cls k n i s = true ↔
      ∃ a r, a.length = n ∧ s = a ++ r ∧ (∀ x ∈ a, cls x = true) ∧ k (i + n) r = true := by
  induction n generalizing s i with
  | zero =>
    simp only [matchExactly, List.length_eq_zero, Nat.add_zero]
    constructor
    · intro h; exact ⟨[], s, rfl, rfl, by simp, h⟩
    · rintro ⟨a, r, rfl, rfl, -, hk⟩; simpa using hk
  | succ n ih =>
    cases s with
    | nil =>
      simp only [matchExactly, Bool.false_eq_true, false_iff]
      rintro ⟨a, r, ha, hs, -⟩
      cases a with
      | nil => simp at ha
      | cons x a => simp at hs
    | cons c s =>
      simp only [matchExactly, Bool.and_eq_true, ih]
      constructor
      · rintro ⟨hc, a, r, ha, rfl, hall, hk⟩
        refine ⟨c :: a, r, by simp [ha], rfl, ?_, ?_⟩
        · intro x hx
          rcases List.mem_cons.mp hx with rfl | hx
          · exact hc
          · exact hall x hx
        · simpa [Nat.add_assoc, Nat.add_comm 1] using hk
      · rintro ⟨a, r, ha, hs, hall, hk⟩
        cases a with
        | nil => simp at ha
        | cons x a =>
          simp only [List.cons_append, List.cons.injEq] at hs
          obtain ⟨rfl, rfl⟩ := hs
          refine ⟨hall c (by simp), a, r, by simpa using ha, rfl,
            fun z hz => hall z (by simp [hz]), ?_⟩
          simpa [Nat.add_assoc, Nat.add_comm 1] using hk

theorem searchFrom_bol_succ (p : Pattern) (i : Nat) (s : List Nat) :
    Pattern.searchFrom (Term.bol :: p) (i + 1) s = false := by
  induction s generalizing i with
  | nil => simp [Pattern.searchFrom, Pattern.matcher, Term.matcher]
  | cons c s ih => simp [Pattern.searchFrom, Pattern.matcher, Term.matcher, ih]

theorem test_bol (p : Pattern) (s : List Nat) :
    Pattern.test (Term.bol :: p) s = Pattern.matcher p 0 s := by
  cases s with
  | nil => simp [Pattern.test, Pattern.searchFrom, Pattern.matcher, Term.matcher]
  | cons c s =>
    simp [Pattern.test, Pattern.searchFrom, Pattern.matcher, Term.matcher, searchFrom_bol_succ]


theorem emailRe_test_iff (s : JSString) :
    emailRe.test s = true ↔ MatchesEmailPattern s := by
  unfold emailRe MatchesEmailPattern
  rw [test_bol]
  simp only [Pattern.matcher, List.foldr, Term.matcher, matchPlus_iff, matchExactly_iff]
  constructor
  · rintro ⟨a, r, ha, rfl, hall, x, r2, hx, rfl, hxa, b, r3, hb, rfl, hbll, y, r4, hy, rfl,
      hya, c, r5, hc, rfl, hcll, h5⟩
    have hx1 : x = [0x40] := by
      match x, hx, hxa with
      | [v], _, hv => simpa using hv
    have hy1 : y = [0x2E] := by
      match y, hy, hya with
      | [v], _, hv => simpa using hv
    subst hx1 hy1
    have hr5 : r5 = [] := by simpa using h5
    subst hr5
    exact ⟨a, b, c, by simp, ha, hb, hc, hall, hbll, hcll⟩
  · rintro ⟨a, b, c, rfl, ha, hb, hc, hall, hbll, hcll⟩
    exact ⟨a, _, ha, rfl, hall, [0x40], _, rfl, rfl, by simp, b, _, hb, rfl, hbll,
      [0x2E], _, rfl, rfl, by simp, c, [], hc, by simp, hcll, by simp⟩

theorem phoneRe_test_iff (s : JSString) :
    phoneRe.test s = true ↔ IsIndianMobile s := by
  unfold phoneRe IsIndianMobile
  rw [test_bol]
  simp only [Pattern.matcher, List.foldr, Term.matcher, matchExactly_iff]
  constructor
  · rintro ⟨x, r, hx, rfl, hxa, b, r2, hb, rfl, hbll, h5⟩
    match x, hx, hxa with
    | [v], _, hv =>
      have hr2 : r2 = [] := by simpa using h5
      subst hr2
      have hv6 : isSixToNine v = true := hv v (by simp)
      simp only [isSixToNine, Bool.and_eq_true, decide_eq_true_eq] at hv6
      refine ⟨by simp [hb], ?_, v, by simp, hv6.1, hv6.2⟩
      intro z hz
      simp only [List.append_nil, List.singleton_append, List.mem_cons] at hz
      rcases hz with rfl | hz
      · simp only [isDigit, Bool.and_eq_true, decide_eq_true_eq]; omega
      · exact hbll z hz
  · rintro ⟨hlen, hall, d, hd, h6, h9⟩
    cases s with
    | nil => simp at hd
    | cons c t =>
      simp only [List.head?_cons, Option.some.injEq] at hd
      subst hd
      refine ⟨[c], t, rfl, rfl, ?_, t, [], by simpa using hlen, by simp,
        fun z hz => hall z (by simp [hz]), by simp⟩
      intro z hz
      simp only [List.mem_singleton] at hz
      subst hz
      simp [isSixToNine, h6, h9]


/-! ## Lemmas on `trim` and on error objects -/

theorem dropWhile_ne_nil_of_mem {p : Nat → Bool} {l : List Nat} {x : Nat}
    (hx : x ∈ l) (hp : p x = false) : l.dropWhile p ≠ [] := by
  induction l with
  | nil => simp at hx
  | cons c l ih =>
    rcases List.mem_cons.mp hx with rfl | hx
    · simp [List.dropWhile, hp]
    · cases hc : p c with
      | false => simp [List.dropWhile, hc]
      | true => simpa [List.dropWhile, hc] using ih hx

theorem dropWhile_head_false {p : Nat → Bool} {l : List Nat} (h : l.dropWhile p ≠ []) :
    ∃ y ∈ l.dropWhile p, p y = false := by
  induction l with
  | nil => simp at h
  | cons c l ih =>
    cases hc : p c with
    | false => exact ⟨c, by simp [List.dropWhile, hc], hc⟩
    | true =>
      simp only [List.dropWhile, hc] at h ⊢
      exact ih h

theorem truthy_trim_of_mem {s : JSString} {x : Nat} (hx : x ∈ s)
    (hp : isWhiteSpace x = false) : truthy (trim s) = true := by
  have h1 : s.dropWhile isWhiteSpace ≠ [] := dropWhile_ne_nil_of_mem hx hp
  obtain ⟨y, hy, hyp⟩ := dropWhile_head_false h1
  have h2 : (s.dropWhile isWhiteSpace).reverse.dropWhile isWhiteSpace ≠ [] :=
    dropWhile_ne_nil_of_mem (List.mem_reverse.mpr hy) hyp
  cases h3 : (s.dropWhile isWhiteSpace).reverse.dropWhile isWhiteSpace with
  | nil => exact absurd h3 h2
  | cons a l => simp [truthy, trim, h3]

theorem ErrorMap.get_set (e : ErrorMap) (k k' : String) (v : JSString) :
    (e.set k v).get k' = if k = k' then some v else e.get k' := by
  induction e with
  | nil =>
    by_cases h : k = k' <;> simp [ErrorMap.set, ErrorMap.get, h]
  | cons kv e ih =>
    obtain ⟨k0, v0⟩ := kv
    simp only [ErrorMap.set]
    by_cases h0 : k0 = k
    · subst h0
      by_cases h : k0 = k' <;> simp [ErrorMap.get, h]
    · simp only [h0, if_false]
      by_cases h1 : k0 = k'
      · subst h1
        have : ¬ k = k0 := fun h => h0 h.symm
        simp [ErrorMap.get, this]
      · have ih' := ih
        simp only [ErrorMap.get] at ih' ⊢
        simp [h1, ih']

theorem ErrorMap.get_nil (k : String) : ErrorMap.get [] k = none := rfl

theorem ErrorMap.keys_ne_of_get {e : ErrorMap} {k : String} {v : JSString}
    (h : e.get k = some v) : (e.keys.length == 0) = false := by
  cases e with
  | nil => simp [ErrorMap.get] at h
  | cons kv e => simp [ErrorMap.keys]

theorem validate_false_of_get {mode : Mode} {form : Form} {k : String} {v : JSString}
    (h : (validate mode form).1.get k = some v) : (validate mode form).2 = false :=
  ErrorMap.keys_ne_of_get h

theorem submit_of_validate_false (backend : Request → Response) (st : AuthPage)
    (h : (validate st.mode st.form).2 = false) :
    submit backend st = { st with errors := (validate st.mode st.form).1 } := by
  simp [submit, h]


theorem checkName_get (form : Form) (e : ErrorMap) (k : String) (hk : "name" ≠ k) :
    (checkName form e).get k = e.get k := by
  unfold checkName; split_ifs <;> simp [ErrorMap.get_set, hk]

theorem checkLocation_get (form : Form) (e : ErrorMap) (k : String) (hk : "location" ≠ k) :
    (checkLocation form e).get k = e.get k := by
  unfold checkLocation; split_ifs <;> simp [ErrorMap.get_set, hk]

theorem checkPhone_get (form : Form) (e : ErrorMap) (k : String) (hk : "phone" ≠ k) :
    (checkPhone form e).get k = e.get k := by
  unfold checkPhone; split_ifs <;> simp [ErrorMap.get_set, hk]

theorem checkConfirmPassword_get (form : Form) (e : ErrorMap) (k : String)
    (hk : "confirmPassword" ≠ k) : (checkConfirmPassword form e).get k = e.get k := by
  unfold checkConfirmPassword; split_ifs <;> simp [ErrorMap.get_set, hk]

theorem checkEmail_get (form : Form) (e : ErrorMap) (k : String) (hk : "email" ≠ k) :
    (checkEmail form e).get k = e.get k := by
  unfold checkEmail; split_ifs <;> simp [ErrorMap.get_set, hk]

theorem checkPassword_get (form : Form) (e : ErrorMap) (k : String) (hk : "password" ≠ k) :
    (checkPassword form e).get k = e.get k := by
  unfold checkPassword; split_ifs <;> simp [ErrorMap.get_set, hk]

theorem validateSignup_get (form : Form) (e : ErrorMap) (k : String)
    (h1 : "name" ≠ k) (h2 : "phone" ≠ k) (h3 : "location" ≠ k) (h4 : "confirmPassword" ≠ k) :
    (validateSignup form e).get k = e.get k := by
  rw [validateSignup, checkConfirmPassword_get _ _ _ h4, checkLocation_get _ _ _ h3,
    checkPhone_get _ _ _ h2, checkName_get _ _ _ h1]

theorem signupStage_get (mode : Mode) (form : Form) (k : String)
    (h1 : "name" ≠ k) (h2 : "phone" ≠ k) (h3 : "location" ≠ k) (h4 : "confirmPassword" ≠ k) :
    (if mode = .signup then validateSignup form [] else []).get k = none := by
  split_ifs
  · rw [validateSignup_get _ _ _ h1 h2 h3 h4]; rfl
  · rfl

theorem validateErrors_get_email (mode : Mode) (form : Form) :
    (validateErrors mode form).get "email" =
      if truthy (trim form.email) = false then some (js "Email required")
      else if emailRe.test form.email = false then some (js "Invalid email")
      else none := by
  have hb := signupStage_get mode form "email" (by decide) (by decide) (by decide) (by decide)
  simp only [validateErrors]
  rw [checkPassword_get _ _ _ (by decide)]
  unfold checkEmail
  split_ifs <;> simp_all [ErrorMap.get_set]

theorem validateErrors_get_password (mode : Mode) (form : Form) :
    (validateErrors mode form).get "password" =
      if truthy form.password = false then some (js "Password required")
      else if form.password.length < 6 then some (js "Min 6 characters")
      else none := by
  have hb := signupStage_get mode form "password" (by decide) (by decide) (by decide) (by decide)
  simp only [validateErrors]
  unfold checkPassword
  split_ifs <;> simp_all [ErrorMap.get_set, checkEmail_get]

theorem validateErrors_get_confirmPassword (form : Form) :
    (validateErrors .signup form).get "confirmPassword" =
      if form.password ≠ form.confirmPassword then some (js "Passwords do not match")
      else none := by
  simp only [validateErrors, if_true]
  rw [checkPassword_get _ _ _ (by decide), checkEmail_get _ _ _ (by decide), validateSignup]
  unfold checkConfirmPassword
  split_ifs
  · simp [ErrorMap.get_set]
  · rw [checkLocation_get _ _ _ (by decide), checkPhone_get _ _ _ (by decide),
      checkName_get _ _ _ (by decide)]
    rfl

theorem validateErrors_get_phone (form : Form) :
    (validateErrors .signup form).get "phone" =
      if truthy (trim form.phone) = false then some (js "Phone required")
      else if phoneRe.test form.phone = false then some (js "Invalid phone")
      else none := by
  simp only [validateErrors, if_true]
  rw [checkPassword_get _ _ _ (by decide), checkEmail_get _ _ _ (by decide), validateSignup,
    checkConfirmPassword_get _ _ _ (by decide), checkLocation_get _ _ _ (by decide)]
  have hn : (checkName form []).get "phone" = none := by
    rw [checkName_get _ _ _ (by decide)]; rfl
  unfold checkPhone
  split_ifs <;> simp_all [ErrorMap.get_set]

/-! ## Auth form validation -/

/-- C1: in either mode, a form whose email does not match
`^[^\s@]+@[^\s@]+\.[^\s@]+$` (the empty and the blank email included) gets an
error on the `email` field (`Email required` when blank, else `Invalid email`),
`validate` returns false, and `submit` only stores the errors: no request is
issued and nothing else changes. -/
theorem validate_rejects_bad_email (backend : Request → Response) (st : AuthPage)
    (h : ¬ MatchesEmailPattern st.form.email) :
    (validate st.mode st.form).1.get "email" =
        some (if truthy (trim st.form.email) then js "Invalid email"
              else js "Email required") ∧
    (validate st.mode st.form).2 = false ∧
    (submit backend st).requests = st.requests ∧
    submit backend st = { st with errors := (validate st.mode st.form).1 } := by
  have ht : emailRe.test st.form.email = false := by
    cases hre : emailRe.test st.form.email with
    | false => rfl
    | true => exact absurd ((emailRe_test_iff _).mp hre) h
  have hget : (validate st.mode st.form).1.get "email" =
      some (if truthy (trim st.form.email) then js "Invalid email"
            else js "Email required") := by
    show (validateErrors st.mode st.form).get "email" = _
    rw [validateErrors_get_email]
    cases truthy (trim st.form.email) <;> simp [ht]
  have hv := validate_false_of_get hget
  have hs := submit_of_validate_false backend st hv
  exact ⟨hget, hv, by rw [hs], hs⟩

/-- C1, instance: the login form with email `a@b` (no dot after the `@`) is
blocked and nothing is requested. -/
theorem validate_rejects_bad_email_witness :
    ¬ MatchesEmailPattern (js "a@b") ∧
    (submit acceptAll
      { AuthPage.initial .login with
        form := { Form.initial with email := js "a@b", password := js "abc123" } }).requests
      = [] :=
  have h : ¬ MatchesEmailPattern (js "a@b") := fun hm =>
    absurd ((emailRe_test_iff _).mpr hm) (by decide)
  ⟨h, (validate_rejects_bad_email acceptAll
      { AuthPage.initial .login with
        form := { Form.initial with email := js "a@b", password := js "abc123" } } h).2.2.1⟩

/-- C2: in either mode, a form whose password has fewer than 6 code units (the
empty password included) gets an error on the `password` field, `validate`
returns false, and `submit` issues no request. -/
theorem validate_rejects_short_password (backend : Request → Response) (st : AuthPage)
    (h : st.form.password.length < 6) :
    (validate st.mode st.form).1.get "password" =
        some (if st.form.password = [] then js "Password required"
              else js "Min 6 characters") ∧
    (validate st.mode st.form).2 = false ∧
    (submit backend st).requests = st.requests ∧
    submit backend st = { st with errors := (validate st.mode st.form).1 } := by
  have hget : (validate st.mode st.form).1.get "password" =
      some (if st.form.password = [] then js "Password required"
            else js "Min 6 characters") := by
    show (validateErrors st.mode st.form).get "password" = _
    rw [validateErrors_get_password]
    cases hp : st.form.password with
    | nil => simp [truthy]
    | cons c t =>
      have hlt : t.length < 5 := by
        have : (c :: t).length < 6 := hp ▸ h
        simp only [List.length_cons] at this
        omega
      simp [truthy, hlt]
  have hv := validate_false_of_get hget
  have hs := submit_of_validate_false backend st hv
  exact ⟨hget, hv, by rw [hs], hs⟩

/-- C2, instance: a well-formed login form with the five-unit password `abc12`
is blocked. -/
theorem validate_rejects_short_password_witness :
    (js "abc12").length < 6 ∧
    (submit acceptAll
      { AuthPage.initial .login with
        form := { Form.initial with email := js "a@b.c", password := js "abc12" } }).requests
      = [] :=
  ⟨by decide, (validate_rejects_short_password acceptAll
      { AuthPage.initial .login with
        form := { Form.initial with email := js "a@b.c", password := js "abc12" } }
      (by decide)).2.2.1⟩

/-- C3: in signup mode, a form whose password differs from confirmPassword
gets the `confirmPassword` error `Passwords do not match`, `validate` returns
false, and `submit` issues neither a signup nor a login request. -/
theorem validate_rejects_password_mismatch (backend : Request → Response) (st : AuthPage)
    (hmode : st.mode = .signup) (h : st.form.password ≠ st.form.confirmPassword) :
    (validate st.mode st.form).1.get "confirmPassword" =
        some (js "Passwords do not match") ∧
    (validate st.mode st.form).2 = false ∧
    (submit backend st).requests = st.requests ∧
    submit backend st = { st with errors := (validate st.mode st.form).1 } := by
  have hget : (validate st.mode st.form).1.get "confirmPassword" =
      some (js "Passwords do not match") := by
    show (validateErrors st.mode st.form).get "confirmPassword" = _
    rw [hmode, validateErrors_get_confirmPassword, if_pos h]
  have hv := validate_false_of_get hget
  have hs := submit_of_validate_false backend st hv
  exact ⟨hget, hv, by rw [hs], hs⟩

/-- C3, instance: signup with password `abc123` and confirmPassword `abc124`,
every other field valid, yields the mismatch error and no request. -/
theorem validate_rejects_password_mismatch_witness :
    (validate .signup
      { name := js "Asha", email := js "a@b.c", phone := js "9876543210",
        password := js "abc123", confirmPassword := js "abc124",
        location := js "Punjab", farmSize := [], primaryCrops := [] }).1.get
      "confirmPassword" = some (js "Passwords do not match") ∧
    (submit acceptAll
      { AuthPage.initial .signup with
        form :=
          { name := js "Asha", email := js "a@b.c", phone := js "9876543210",
            password := js "abc123", confirmPassword := js "abc124",
            location := js "Punjab", farmSize := [], primaryCrops := [] } }).requests = [] :=
  have r := validate_rejects_password_mismatch acceptAll
    { AuthPage.initial .signup with
      form :=
        { name := js "Asha", email := js "a@b.c", phone := js "9876543210",
          password := js "abc123", confirmPassword := js "abc124",
          location := js "Punjab", farmSize := [], primaryCrops := [] } }
    rfl (by decide)
  ⟨r.1, r.2.2.1⟩

/-- C4: in signup mode `validate` leaves the `phone` field without an error
exactly when the phone is a string of ten digits whose first digit is 6, 7, 8 or
9; `9876543210` passes and `123` gets `Invalid phone`. -/
theorem validate_phone_ok_iff :
    (∀ form : Form,
      (validate .signup form).1.get "phone" = none ↔ IsIndianMobile form.phone) ∧
    (validate .signup { Form.initial with phone := js "9876543210" }).1.get "phone" = none ∧
    (validate .signup { Form.initial with phone := js "123" }).1.get "phone" =
      some (js "Invalid phone") := by
  refine ⟨fun form => ?_, by decide, by decide⟩
  show (validateErrors .signup form).get "phone" = none ↔ _
  rw [validateErrors_get_phone, ← phoneRe_test_iff]
  constructor
  · intro h
    split_ifs at h with h1 h2
    cases hre : phoneRe.test form.phone with
    | false => exact absurd hre h2
    | true => rfl
  · intro h
    obtain ⟨-, hall, d, hd, h6, h9⟩ := (phoneRe_test_iff _).mp h
    have hmem : d ∈ form.phone := by
      cases hp : form.phone with
      | nil => simp [hp] at hd
      | cons c t =>
        simp only [hp, List.head?_cons, Option.some.injEq] at hd
        simp [hd]
    have hws : isWhiteSpace d = false := by
      simp only [isWhiteSpace, Bool.or_eq_false_iff, Bool.and_eq_false_imp,
        beq_eq_false_iff_ne, decide_eq_true_eq, decide_eq_false_iff_not]
      omega
    have ht := truthy_trim_of_mem hmem hws
    simp [ht, h]

/-! ## Route guards -/

/-- C5: once the session is resolved, an unauthenticated visit to `/dashboard`,
`/profile` or `/admin` yields a redirect to `/auth`, and an authenticated visit
(whatever the user or role) to `/dashboard` or `/profile` renders that screen
inside the layout, without a redirect. -/
theorem guarded_routes_after_resolution (ctx : AuthContext) (hres : ctx.isLoading = false) :
    (ctx.isAuthenticated = false →
      AppContent ctx "/dashboard" = some (.navigate "/auth") ∧
      AppContent ctx "/profile" = some (.navigate "/auth") ∧
      AppContent ctx "/admin" = some (.navigate "/auth")) ∧
    (ctx.isAuthenticated = true →
      AppContent ctx "/dashboard" = some (.children ⟨true, true, .DashboardPage⟩) ∧
      AppContent ctx "/profile" = some (.children ⟨true, true, .Profile⟩)) := by
  have hd : matchRoutes routes "/dashboard" =
      some ⟨"/dashboard", .protectedRoute false ⟨true, true, .DashboardPage⟩⟩ := by decide
  have hp : matchRoutes routes "/profile" =
      some ⟨"/profile", .protectedRoute false ⟨true, true, .Profile⟩⟩ := by decide
  have ha : matchRoutes routes "/admin" =
      some ⟨"/admin", .protectedRoute true ⟨true, true, .AdminPanel⟩⟩ := by decide
  constructor
  · intro hau
    simp [AppContent, hres, hd, hp, ha, RouteElement.render, ProtectedRoute, hau]
  · intro hau
    simp [AppContent, hres, hd, hp, RouteElement.render, ProtectedRoute, hau]

/-- C5, instance: the anonymous resolved session is sent from `/admin` to
`/auth`, and the session of a user with role `user` sees the dashboard. -/
theorem guarded_routes_after_resolution_witness :
    anonymousSession.isLoading = false ∧
    AppContent anonymousSession "/admin" = some (.navigate "/auth") ∧
    AppContent farmerSession "/dashboard" = some (.children ⟨true, true, .DashboardPage⟩) :=
  ⟨rfl, ((guarded_routes_after_resolution anonymousSession rfl).1 rfl).2.2,
    ((guarded_routes_after_resolution farmerSession rfl).2 rfl).1⟩

/-- C6: for a resolved, authenticated session whose user role is not `admin`
(another role, no role, or no user), `ProtectedRoute` with `adminOnly` returns
a redirect to `/dashboard` instead of its children; so does the `/admin`
route. -/
theorem admin_route_redirects_non_admin {α : Type} (ctx : AuthContext) (children : α)
    (hres : ctx.isLoading = false) (hau : ctx.isAuthenticated = true)
    (hrole : userRole ctx.user ≠ some (js "admin")) :
    ProtectedRoute ctx children true = .navigate "/dashboard" ∧
    ProtectedRoute ctx children true ≠ .children children ∧
    AppContent ctx "/admin" = some (.navigate "/dashboard") := by
  have ha : matchRoutes routes "/admin" =
      some ⟨"/admin", .protectedRoute true ⟨true, true, .AdminPanel⟩⟩ := by decide
  have h1 : ∀ {β : Type} (c : β), ProtectedRoute ctx c true = .navigate "/dashboard" := by
    intro β c
    simp [ProtectedRoute, hres, hau, hrole]
  refine ⟨h1 children, ?_, ?_⟩
  · rw [h1 children]; exact fun h => Outcome.noConfusion h
  · simp [AppContent, hres, ha, RouteElement.render, h1]

/-- C6, instance: a user with role `user`, and an authenticated session
without a user record, are both sent from the admin screen to `/dashboard`. -/
theorem admin_route_redirects_non_admin_witness :
    ProtectedRoute farmerSession Screen.AdminPanel true = .navigate "/dashboard" ∧
    ProtectedRoute (AuthContext.mk true none false) Screen.AdminPanel true =
      .navigate "/dashboard" :=
  ⟨(admin_route_redirects_non_admin farmerSession Screen.AdminPanel rfl rfl (by decide)).1,
    (admin_route_redirects_non_admin (AuthContext.mk true none false) Screen.AdminPanel
      rfl rfl (by decide)).1⟩

/-- C7, as stated, fails in the LOADING state: there the guard returns the
loading spinner, not a redirect to `/auth`. -/
theorem protected_loading_not_redirect :
    guardState loadingSession = .LOADING ∧
    ProtectedRoute loadingSession Screen.DashboardPage false = .loadingSpinner ∧
    ProtectedRoute loadingSession Screen.DashboardPage false ≠ .navigate "/auth" := by
  decide

/-- C7, amended: `ProtectedRoute` without `adminOnly` renders its children
exactly in the AUTHENTICATED state; in UNAUTHENTICATED it returns a redirect to
`/auth` and in LOADING the loading spinner. -/
theorem protected_route_by_state {α : Type} (ctx : AuthContext) (children : α) :
    ProtectedRoute ctx children false =
      match guardState ctx with
      | .LOADING => .loadingSpinner
      | .UNAUTHENTICATED => .navigate "/auth"
      | .AUTHENTICATED _ => .children children := by
  obtain ⟨au, user, ld⟩ := ctx
  cases ld <;> cases au <;> simp [ProtectedRoute, guardState]

/-- C8, as stated, fails outside AUTHENTICATED: in UNAUTHENTICATED the
admin-only guard redirects to `/auth`, and in LOADING it returns the loading
spinner; neither is a redirect to `/dashboard`. -/
theorem admin_only_not_always_dashboard :
    guardState anonymousSession = .UNAUTHENTICATED ∧
    ProtectedRoute anonymousSession Screen.AdminPanel true = .navigate "/auth" ∧
    ProtectedRoute anonymousSession Screen.AdminPanel true ≠ .navigate "/dashboard" ∧
    guardState loadingSession = .LOADING ∧
    ProtectedRoute loadingSession Screen.AdminPanel true ≠ .navigate "/dashboard" := by
  decide

/-- C8, amended: `ProtectedRoute` with `adminOnly` renders its children
exactly in AUTHENTICATED with role `admin`; in AUTHENTICATED with any other or
no role it returns a redirect to `/dashboard`, in UNAUTHENTICATED a redirect to
`/auth`, and in LOADING the loading spinner. -/
theorem admin_only_route_by_state {α : Type} (ctx : AuthContext) (children : α) :
    ProtectedRoute ctx children true =
      match guardState ctx with
      | .LOADING => .loadingSpinner
      | .UNAUTHENTICATED => .navigate "/auth"
      | .AUTHENTICATED role =>
        if role = some (js "admin") then .children children else .navigate "/dashboard" := by
  obtain ⟨au, user, ld⟩ := ctx
  cases ld <;> cases au <;> simp [ProtectedRoute, guardState]

/-- C9: for a resolved session `PublicRoute` returns a redirect to
`/dashboard` when the session is authenticated and its children otherwise; the
`/auth` route behaves so around the Auth screen. -/
theorem public_route_resolved {α : Type} (ctx : AuthContext) (children : α)
    (hres : ctx.isLoading = false) :
    PublicRoute ctx children =
      (if ctx.isAuthenticated then .navigate "/dashboard" else .children children) ∧
    AppContent ctx "/auth" =
      some (if ctx.isAuthenticated then .navigate "/dashboard"
            else .children ⟨false, false, .Auth⟩) := by
  have ha : matchRoutes routes "/auth" =
      some ⟨"/auth", .publicRoute ⟨false, false, .Auth⟩⟩ := by decide
  simp [AppContent, PublicRoute, hres, ha, RouteElement.render]

/-- C9, instance: the user session is redirected away from `/auth`, the
anonymous one sees the Auth screen. -/
theorem public_route_resolved_witness :
    PublicRoute farmerSession Screen.Auth = .navigate "/dashboard" ∧
    PublicRoute anonymousSession Screen.Auth = .children Screen.Auth :=
  ⟨(public_route_resolved farmerSession Screen.Auth rfl).1,
    (public_route_resolved anonymousSession Screen.Auth rfl).1⟩

/-! ## Route selection -/

theorem all_slash_iff (cs : List Char) :
    cs.all (fun c => c == '/') = true ↔ ∃ n, cs = List.replicate n '/' := by
  constructor
  · intro h
    refine ⟨cs.length, ?_⟩
    rw [List.eq_replicate_iff]
    refine ⟨rfl, ?_⟩
    intro b hb
    have := List.all_eq_true.mp h b hb
    simpa using this
  · rintro ⟨n, rfl⟩
    simp [List.all_eq_true]

theorem matchFold_iff (ps cs : List Char) :
    matchFold ps cs = true ↔
      ∃ body n, cs = body ++ List.replicate n '/' ∧
        body.map foldCode = ps.map foldCode := by
  induction ps generalizing cs with
  | nil =>
    simp only [matchFold, all_slash_iff, List.map_nil, List.map_eq_nil_iff]
    constructor
    · rintro ⟨n, rfl⟩
      exact ⟨[], n, rfl, rfl⟩
    · rintro ⟨body, n, rfl, rfl⟩
      exact ⟨n, rfl⟩
  | cons p ps ih =>
    cases cs with
    | nil =>
      simp only [matchFold, Bool.false_eq_true, false_iff]
      rintro ⟨body, n, hcs, hb⟩
      cases body with
      | nil => simp at hb
      | cons x body => simp at hcs
    | cons c cs =>
      simp only [matchFold, Bool.and_eq_true, beq_iff_eq, ih]
      constructor
      · rintro ⟨hpc, body, n, rfl, hb⟩
        exact ⟨c :: body, n, rfl, by simp [hb, hpc]⟩
      · rintro ⟨body, n, hcs, hb⟩
        cases body with
        | nil => simp at hb
        | cons x body =>
          simp only [List.cons_append, List.cons.injEq] at hcs
          simp only [List.map_cons, List.cons.injEq] at hb
          obtain ⟨rfl, rfl⟩ := hcs
          exact ⟨hb.1.symm, body, n, rfl, hb.2⟩

theorem matchStatic_iff (path pathname : String) (hp : normalizePath path = path.toList) :
    matchStatic path pathname = true ↔ SamePath path pathname := by
  rw [matchStatic, hp, matchFold_iff]
  rfl

/-- C10, as stated, fails for locations that differ from a route path only in
letter case or by trailing slashes: `/Dashboard` and `/admin/` are not among
the eleven paths of the table, yet they select the protected dashboard and the
admin-only panel, not the not-found screen. -/
theorem other_path_not_always_not_found :
    "/Dashboard" ∉ routes.map (fun r => r.path) ∧
    (matchRoutes routes "/Dashboard").map (fun r => (r.element.access, r.element.screen)) =
      some (.protected_, .DashboardPage) ∧
    "/admin/" ∉ routes.map (fun r => r.path) ∧
    (matchRoutes routes "/admin/").map (fun r => (r.element.access, r.element.screen)) =
      some (.adminOnly, .AdminPanel) ∧
    (matchRoutes routes "/nowhere").map (fun r => (r.element.access, r.element.screen)) =
      some (.pub, .NotFound) := by
  refine ⟨by decide, by decide, by decide, by decide, by decide⟩

/-- C10, amended: the route table of `AppContent` lists, in this order, `/`
public, `/auth` public-only, `/dashboard` and `/profile` protected, `/prices`,
`/crop-guide`, `/disease-detection`, `/cost-calculator`, `/chatbot` and `/iot`
public, `/admin` admin-only and the splat route with the not-found screen. A
location selects the first of the eleven paths that it matches, where matching
a path means being equal to it up to letter case and trailing slashes; a
location that matches none of them and is a path (a leading slash, no line
break) selects the not-found screen, which is public. -/
theorem route_table_by_pattern :
    routes.map (fun r => (r.path, r.element.access, r.element.screen)) =
      [ ("/", .pub, .Home), ("/auth", .publicOnly, .Auth),
        ("/dashboard", .protected_, .DashboardPage), ("/profile", .protected_, .Profile),
        ("/prices", .pub, .PriceTracker), ("/crop-guide", .pub, .CropGuide),
        ("/disease-detection", .pub, .DiseaseDetector),
        ("/cost-calculator", .pub, .CostCalculator), ("/chatbot", .pub, .Chatbot),
        ("/iot", .pub, .IoTPlaceholder), ("/admin", .adminOnly, .AdminPanel),
        ("*", .pub, .NotFound) ] ∧
    (∀ pathname : String, pathname ≠ "" →
      (matchRoutes routes pathname).map (fun r => (r.element.access, r.element.screen)) =
        if matchStatic "/" pathname then some (.pub, .Home)
        else if matchStatic "/auth" pathname then some (.publicOnly, .Auth)
        else if matchStatic "/dashboard" pathname then some (.protected_, .DashboardPage)
        else if matchStatic "/profile" pathname then some (.protected_, .Profile)
        else if matchStatic "/prices" pathname then some (.pub, .PriceTracker)
        else if matchStatic "/crop-guide" pathname then some (.pub, .CropGuide)
        else if matchStatic "/disease-detection" pathname then some (.pub, .DiseaseDetector)
        else if matchStatic "/cost-calculator" pathname then some (.pub, .CostCalculator)
        else if matchStatic "/chatbot" pathname then some (.pub, .Chatbot)
        else if matchStatic "/iot" pathname then some (.pub, .IoTPlaceholder)
        else if matchStatic "/admin" pathname then some (.adminOnly, .AdminPanel)
        else if matchSplat pathname then some (.pub, .NotFound)
        else none) ∧
    (∀ r ∈ routes, r.path ≠ "*" → ∀ pathname : String,
      (matchStatic r.path pathname = true ↔ SamePath r.path pathname)) ∧
    (∀ pathname : String, matchSplat pathname = true ↔
      ∃ rest, pathname.toList = '/' :: rest ∧ ∀ c ∈ rest, isLineTerminator c = false) ∧
    matchRoutes routes "" = matchRoutes routes "/" := by
  refine ⟨by decide, ?_, ?_, ?_, rfl⟩
  · intro pathname hne
    cases h1 : matchStatic "/" pathname
    swap
    · simp [matchRoutes, routes, List.find?, hne, h1, RouteElement.access,
        RouteElement.screen]
    cases h2 : matchStatic "/auth" pathname
    swap
    · simp [matchRoutes, routes, List.find?, hne, h1, h2, RouteElement.access,
        RouteElement.screen]
    cases h3 : matchStatic "/dashboard" pathname
    swap
    · simp [matchRoutes, routes, List.find?, hne, h1, h2, h3, RouteElement.access,
        RouteElement.screen]
    cases h4 : matchStatic "/profile" pathname
    swap
    · simp [matchRoutes, routes, List.find?, hne, h1, h2, h3, h4, RouteElement.access,
        RouteElement.screen]
    cases h5 : matchStatic "/prices" pathname
    swap
    · simp [matchRoutes, routes, List.find?, hne, h1, h2, h3, h4, h5, RouteElement.access,
        RouteElement.screen]
    cases h6 : matchStatic "/crop-guide" pathname
    swap
    · simp [matchRoutes, routes, List.find?, hne, h1, h2, h3, h4, h5, h6, RouteElement.access,
        RouteElement.screen]
    cases h7 : matchStatic "/disease-detection" pathname
    swap
    · simp [matchRoutes, routes, List.find?, hne, h1, h2, h3, h4, h5, h6, h7, RouteElement.access,
        RouteElement.screen]
    cases h8 : matchStatic "/cost-calculator" pathname
    swap
    · simp [matchRoutes, routes, List.find?, hne, h1, h2, h3, h4, h5, h6, h7, h8, RouteElement.access,
        RouteElement.screen]
    cases h9 : matchStatic "/chatbot" pathname
    swap
    · simp [matchRoutes, routes, List.find?, hne, h1, h2, h3, h4, h5, h6, h7, h8, h9, RouteElement.access,
        RouteElement.screen]
    cases h10 : matchStatic "/iot" pathname
    swap
    · simp [matchRoutes, routes, List.find?, hne, h1, h2, h3, h4, h5, h6, h7, h8, h9, h10, RouteElement.access,
        RouteElement.screen]
    cases h11 : matchStatic "/admin" pathname
    swap
    · simp [matchRoutes, routes, List.find?, hne, h1, h2, h3, h4, h5, h6, h7, h8, h9, h10, h11, RouteElement.access,
        RouteElement.screen]
    cases h12 : matchSplat pathname <;>
      simp [matchRoutes, routes, List.find?, hne, h1, h2, h3, h4, h5, h6, h7, h8, h9, h10, h11, h12, RouteElement.access,
        RouteElement.screen]
  · intro r hr hstar pathname
    simp only [routes, List.mem_cons, List.mem_singleton] at hr
    rcases hr with rfl | rfl | rfl | rfl | rfl | rfl | rfl | rfl | rfl | rfl | rfl | rfl | hr
    · exact matchStatic_iff _ _ (by decide)
    · exact matchStatic_iff _ _ (by decide)
    · exact matchStatic_iff _ _ (by decide)
    · exact matchStatic_iff _ _ (by decide)
    · exact matchStatic_iff _ _ (by decide)
    · exact matchStatic_iff _ _ (by decide)
    · exact matchStatic_iff _ _ (by decide)
    · exact matchStatic_iff _ _ (by decide)
    · exact matchStatic_iff _ _ (by decide)
    · exact matchStatic_iff _ _ (by decide)
    · exact matchStatic_iff _ _ (by decide)
    · exact absurd rfl hstar
    · cases hr
  · intro pathname
    simp only [matchSplat]
    constructor
    · intro h
      split at h
      · rename_i rest heq
        exact ⟨rest, heq, fun c hc => by simpa using List.all_eq_true.mp h c hc⟩
      · cases h
    · rintro ⟨rest, heq, hall⟩
      rw [heq]
      simp only [List.all_eq_true]
      intro c hc
      simp [hall c hc]

/-! ## Lemmas on logs, `includes` and the filter -/

theorem requestsOf_append {κ : Type} (l m : List (Event κ)) :
    requestsOf (l ++ m) = requestsOf l ++ requestsOf m := by
  simp [requestsOf, List.filterMap_append]

theorem alertsOf_append {κ : Type} (l m : List (Event κ)) :
    alertsOf (l ++ m) = alertsOf l ++ alertsOf m := by
  simp [alertsOf, List.filterMap_append]

theorem includes_iff (s sub : JSString) : includes s sub = true ↔ sub <:+: s := by
  simp only [includes, List.any_eq_true, List.mem_tails, List.isPrefixOf_iff_prefix]
  constructor
  · rintro ⟨t, ht, hp⟩
    exact hp.isInfix.trans ht.isInfix
  · intro h
    obtain ⟨t, hp, ht⟩ := List.infix_iff_prefix_suffix.mp h
    exact ⟨t, ht, hp⟩

theorem toString_ok_of_defined (eng : Engine) (v : JSValue)
    (h : v ≠ .undefined ∧ v ≠ .null) : ∃ s, v.toString eng = .ok s := by
  cases v with
  | undefined => exact absurd rfl h.1
  | null => exact absurd rfl h.2
  | bool b => cases b <;> exact ⟨_, rfl⟩
  | number n => exact ⟨_, rfl⟩
  | string str => exact ⟨_, rfl⟩
  | object r str => exact ⟨_, rfl⟩

theorem someValue_of_defined (eng : Engine) (query : JSString) (vs : List JSValue)
    (h : ∀ v ∈ vs, v ≠ .undefined ∧ v ≠ .null) :
    someValue eng query vs = .ok (vs.any (fun v =>
      match v.toString eng with
      | .ok s => includes (eng.toLowerCase s) (eng.toLowerCase query)
      | .error _ => false)) := by
  induction vs with
  | nil => rfl
  | cons v vs ih =>
    obtain ⟨s, hs⟩ := toString_ok_of_defined eng v (h v (by simp))
    have ih' := ih (fun w hw => h w (by simp [hw]))
    simp only [someValue, valueMatches, hs, List.any_cons]
    cases includes (eng.toLowerCase s) (eng.toLowerCase query) <;> simp [ih']

theorem filterItems_of_defined (eng : Engine) (query : JSString) (items : List Record)
    (h : ∀ item ∈ items, item.Defined) :
    filterItems eng query items = .ok (items.filter (matchesQuery eng query)) := by
  induction items with
  | nil => rfl
  | cons item items ih =>
    have ih' := ih (fun it hit => h it (by simp [hit]))
    have hs := someValue_of_defined eng query item.values (h item (by simp))
    simp only [filterItems, hs, ih', List.filter_cons, matchesQuery]

theorem deleteCase_tab_id (tab : Tab) : deleteCase tab.id = none := by
  cases tab <;> decide

theorem clickDelete_eq_self (api : Api) (confirmed : Bool) (item : Record) (st : AdminState) :
    clickDelete api confirmed item st = st := by
  cases confirmed <;> simp [clickDelete, handleDelete, deleteCase_tab_id]

/-! ## Admin panel: delete, create, edit -/

/-- C11: for every id and type, when the confirmation dialog is declined
`handleDelete` returns at once: the state is the one before, so no delete
request is logged and the data state (crops, diseases, costTemplates,
analytics) is unchanged. -/
theorem handleDelete_declined (api : Api) (id : JSValue) (type : String) (st : AdminState) :
    handleDelete api false id type st = st ∧
    requestsOf (handleDelete api false id type st).log = requestsOf st.log ∧
    (handleDelete api false id type st).data = st.data := by
  simp [handleDelete]

/-- C12, evaluated: on the Crops tab the row of Wheat is shown; clicking its
delete button, accepting the confirmation, with a backend that would resolve
the delete, issues no request and leaves both crops in the list, because the
button passes the tab id `crops` and `handleDelete` has no case for it. -/
theorem clickDelete_keeps_row :
    filteredData asciiEngine (adminWith .crops) = .ok [wheat, rice] ∧
    deleteCase (adminWith .crops).activeTab.id = none ∧
    requestsOf (clickDelete echoApi true wheat (adminWith .crops)).log = [] ∧
    (clickDelete echoApi true wheat (adminWith .crops)).data.crops = [wheat, rice] ∧
    (handleDelete echoApi true (wheat.get "_id") "crop" (adminWith .crops)).data.crops
      = [rice] := by
  refine ⟨rfl, by decide, by decide, by decide, by decide⟩

/-- C13: when the confirmation is accepted, the type names a case of the
switch and the delete request rejects, `handleDelete` shows the alert
`Failed to delete item`, has issued that one request, and leaves the data
state unchanged. -/
theorem handleDelete_rejected (api : Api) (id : JSValue) (type : String) (e : Entity)
    (st : AdminState) (hcase : deleteCase type = some e)
    (hrej : api.delete e id = .rejected) :
    (handleDelete api true id type st).data = st.data ∧
    alertsOf (handleDelete api true id type st).log =
      alertsOf st.log ++ [js "Failed to delete item"] ∧
    requestsOf (handleDelete api true id type st).log =
      requestsOf st.log ++ [.delete e id] := by
  simp [handleDelete, hcase, hrej, AdminState.emit, alertsOf_append, requestsOf_append,
    alertsOf, requestsOf]

/-- C13, instance: deleting crop `c1` against a backend that is down. -/
theorem handleDelete_rejected_witness :
    (handleDelete downApi true (.string (js "c1")) "crop" (adminWith .crops)).data =
      (adminWith .crops).data ∧
    alertsOf (handleDelete downApi true (.string (js "c1")) "crop" (adminWith .crops)).log =
      [js "Failed to delete item"] :=
  have r := handleDelete_rejected downApi (.string (js "c1")) "crop" .crop (adminWith .crops)
    (by decide) rfl
  ⟨r.1, r.2.1⟩

/-- C14: on the tab of an entity, a create whose request resolves with record
`r` appends `r` at the end of that entity's list, leaves the other lists and
the analytics unchanged, closes the modal, empties the form data and ends with
loading false. -/
theorem handleSubmit_create (api : Api) (st : AdminState) (e : Entity) (r : Record)
    (htab : st.activeTab = e.tab) (hmode : st.modalType = .create)
    (hres : api.create e st.formData = .resolved r) :
    (handleSubmit api st).data.list e = st.data.list e ++ [r] ∧
    ((handleSubmit api st).data.list e).length = (st.data.list e).length + 1 ∧
    (∀ e2, e2 ≠ e → (handleSubmit api st).data.list e2 = st.data.list e2) ∧
    (handleSubmit api st).data.analytics = st.data.analytics ∧
    (handleSubmit api st).showModal = false ∧
    (handleSubmit api st).formData = [] ∧
    (handleSubmit api st).loading = false := by
  have key : (handleSubmit api st).data = st.data.setList e (st.data.list e ++ [r]) ∧
      (handleSubmit api st).showModal = false ∧ (handleSubmit api st).formData = [] ∧
      (handleSubmit api st).loading = false := by
    cases e <;>
      simp [handleSubmit, handleSubmitTry, submitCase, AdminState.setLoading,
        AdminState.emit, htab, hmode, Entity.tab, Tab.id, hres]
  obtain ⟨hd, hm, hf, hl⟩ := key
  refine ⟨?_, ?_, ?_, ?_, hm, hf, hl⟩
  · rw [hd]; cases e <;> rfl
  · rw [hd]; cases e <;> simp [AdminData.setList, AdminData.list]
  · intro e2 hne
    rw [hd]
    cases e <;> cases e2 <;> first | rfl | exact absurd rfl hne
  · rw [hd]; cases e <;> rfl

/-- C14, instance: creating Wheat on the Crops tab of a panel that holds
Wheat and Rice yields Wheat, Rice, Wheat and closes the modal. -/
theorem handleSubmit_create_witness :
    (handleSubmit echoApi
      { adminWith .crops with showModal := true, formData := wheat }).data.crops =
      [wheat, rice, wheat] ∧
    (handleSubmit echoApi
      { adminWith .crops with showModal := true, formData := wheat }).showModal = false :=
  have r := handleSubmit_create echoApi
    { adminWith .crops with showModal := true, formData := wheat } .crop wheat rfl rfl rfl
  ⟨r.1, r.2.2.2.2.1⟩

/-- C15: on the tab of an entity, an edit of the selected item `sel` whose
request resolves with record `r` replaces by `r` exactly the items of that
entity's list whose `_id` is strictly equal to `sel._id`; every other item,
the positions and the length of the list, the other lists and the analytics
are unchanged. -/
theorem handleSubmit_edit (api : Api) (st : AdminState) (e : Entity) (sel r : Record)
    (htab : st.activeTab = e.tab) (hmode : st.modalType = .edit)
    (hsel : st.selectedItem = some sel)
    (hres : api.update e (sel.get "_id") st.formData = .resolved r) :
    (∀ i : Nat, ((handleSubmit api st).data.list e)[i]? =
      ((st.data.list e)[i]?).map
        (fun item => if (item.get "_id").strictEq (sel.get "_id") then r else item)) ∧
    ((handleSubmit api st).data.list e).length = (st.data.list e).length ∧
    (∀ e2, e2 ≠ e → (handleSubmit api st).data.list e2 = st.data.list e2) ∧
    (handleSubmit api st).data.analytics = st.data.analytics := by
  have hd : (handleSubmit api st).data = st.data.setList e
      ((st.data.list e).map
        (fun item => if (item.get "_id").strictEq (sel.get "_id") then r else item)) := by
    cases e <;>
      simp [handleSubmit, handleSubmitTry, submitCase, AdminState.setLoading,
        AdminState.emit, htab, hmode, hsel, Entity.tab, Tab.id, hres]
  refine ⟨?_, ?_, ?_, ?_⟩
  · intro i
    rw [hd]
    cases e <;> simp [AdminData.setList, AdminData.list, List.getElem?_map]
  · rw [hd]; cases e <;> simp [AdminData.setList, AdminData.list]
  · intro e2 hne
    rw [hd]
    cases e <;> cases e2 <;> first | rfl | exact absurd rfl hne
  · rw [hd]; cases e <;> rfl

/-- C15, instance: Rice is opened with `handleEdit` and saved as a record
named Paddy; Wheat stays first and Rice's place is taken by the new record. -/
theorem handleSubmit_edit_witness :
    ((handleSubmit echoApi
      { handleEdit rice (adminWith .crops) with
        formData := [("_id", .string (js "c2")), ("name", .string (js "Paddy"))] }).data.list
        .crop)[1]? = some [("_id", .string (js "c2")), ("name", .string (js "Paddy"))] ∧
    ((handleSubmit echoApi
      { handleEdit rice (adminWith .crops) with
        formData := [("_id", .string (js "c2")), ("name", .string (js "Paddy"))] }).data.list
        .crop)[0]? = some wheat :=
  have r := handleSubmit_edit echoApi
    { handleEdit rice (adminWith .crops) with
      formData := [("_id", .string (js "c2")), ("name", .string (js "Paddy"))] }
    .crop rice [("_id", .string (js "c2")), ("name", .string (js "Paddy"))] rfl rfl rfl rfl
  ⟨(r.1 1).trans (by decide), (r.1 0).trans (by decide)⟩

/-- C16: on the tab of an entity, when the create request (create mode) or the
update request (edit mode, an item selected) rejects, `handleSubmit` shows the
alert `Failed to save item`, leaves the data state, the modal flag and the form
data as they were, and ends with loading false. -/
theorem handleSubmit_rejected (api : Api) (st : AdminState) (e : Entity)
    (htab : st.activeTab = e.tab)
    (hrej : (st.modalType = .create ∧ api.create e st.formData = .rejected) ∨
      (st.modalType = .edit ∧ ∃ sel, st.selectedItem = some sel ∧
        api.update e (sel.get "_id") st.formData = .rejected)) :
    alertsOf (handleSubmit api st).log = alertsOf st.log ++ [js "Failed to save item"] ∧
    (handleSubmit api st).data = st.data ∧
    (handleSubmit api st).showModal = st.showModal ∧
    (handleSubmit api st).formData = st.formData ∧
    (handleSubmit api st).loading = false := by
  rcases hrej with ⟨hmode, hres⟩ | ⟨hmode, sel, hsel, hres⟩
  · cases e <;>
      simp [handleSubmit, handleSubmitTry, submitCase, AdminState.setLoading,
        AdminState.emit, htab, hmode, Entity.tab, Tab.id, hres, alertsOf_append, alertsOf]
  · cases e <;>
      simp [handleSubmit, handleSubmitTry, submitCase, AdminState.setLoading,
        AdminState.emit, htab, hmode, hsel, Entity.tab, Tab.id, hres, alertsOf_append,
        alertsOf]

/-- C16, instance: a create on the Diseases tab against a backend that is
down keeps the lists, the open modal and the typed form data. -/
theorem handleSubmit_rejected_witness :
    alertsOf (handleSubmit downApi
      { adminWith .diseases with showModal := true, formData := rice }).log =
      [js "Failed to save item"] ∧
    (handleSubmit downApi
      { adminWith .diseases with showModal := true, formData := rice }).showModal = true ∧
    (handleSubmit downApi
      { adminWith .diseases with showModal := true, formData := rice }).formData = rice :=
  have r := handleSubmit_rejected downApi
    { adminWith .diseases with showModal := true, formData := rice } .disease rfl
    (Or.inl ⟨rfl, rfl⟩)
  ⟨r.1, r.2.2.1, r.2.2.2.1⟩

/-! ## Admin panel: search -/

/-- C17, evaluated: with the crops Wheat and Rice the query `whe` keeps only
Wheat, but a crop with a `null` field makes `filteredData` throw a TypeError
instead of dropping the item, and on the Cost Templates tab the result is
empty although a matching record was fetched. -/
theorem filteredData_throws_on_null :
    filteredData asciiEngine { adminWith .crops with searchQuery := js "whe" } =
      .ok [wheat] ∧
    filteredData asciiEngine
      { adminWith .crops with
        searchQuery := js "rice",
        data := { (adminWith .crops).data with
          crops := [[("_id", .string (js "c1")), ("name", .string (js "Wheat")),
                     ("scientificName", .null)]] } } = .error .typeError ∧
    (adminWith .costTemplates).data.costTemplates = [wheat, rice] ∧
    filteredData asciiEngine { adminWith .costTemplates with searchQuery := js "whe" } =
      .ok [] := by
  refine ⟨rfl, rfl, rfl, rfl⟩

/-- On the Crops and Diseases tabs, when no fetched record has an `undefined`
or `null` field, a non-empty query keeps exactly the items one of whose values
contains the query (both lower-cased), in the order of the fetched list. -/
theorem filteredData_of_defined (eng : Engine) (st : AdminState) (e : Entity)
    (htab : st.activeTab = e.tab) (hne : e ≠ .costTemplate)
    (hq : st.searchQuery ≠ []) (hdef : ∀ item ∈ st.data.list e, item.Defined) :
    filteredData eng st = .ok ((st.data.list e).filter (matchesQuery eng st.searchQuery)) := by
  have hq2 : truthy st.searchQuery = true := by
    cases hs : st.searchQuery with
    | nil => exact absurd hs hq
    | cons c t => rfl
  cases e with
  | crop =>
    have := filterItems_of_defined eng st.searchQuery st.data.crops hdef
    simp [filteredData, htab, Entity.tab, Tab.id, AdminData.prop, hq2, this, AdminData.list]
  | disease =>
    have := filterItems_of_defined eng st.searchQuery st.data.diseases hdef
    simp [filteredData, htab, Entity.tab, Tab.id, AdminData.prop, hq2, this, AdminData.list]
  | costTemplate => exact absurd rfl hne

/-! ## Failed reads -/

theorem searchCropPrices_failed (api : MarketCall → ApiResult JSValue) (st : MarketState)
    (h : api (.getMarketPrices st.selectedCrop st.selectedState) = .rejected ∨
      api (.getPriceTrends st.selectedCrop st.selectedState 30) = .rejected ∨
      api (.getOptimalSellingTime st.selectedCrop st.selectedState) = .rejected) :
    (searchCropPrices api st).marketData = st.marketData ∧
    (searchCropPrices api st).priceHistory = st.priceHistory ∧
    (searchCropPrices api st).sellingRecommendation = st.sellingRecommendation ∧
    ∃ issued, requestsOf (searchCropPrices api st).log = requestsOf st.log ++ issued ∧
      issued <+: [.getMarketPrices st.selectedCrop st.selectedState,
        .getPriceTrends st.selectedCrop st.selectedState 30,
        .getOptimalSellingTime st.selectedCrop st.selectedState] := by
  cases h1 : api (.getMarketPrices st.selectedCrop st.selectedState) with
  | rejected =>
    refine ⟨?_, ?_, ?_, [.getMarketPrices st.selectedCrop st.selectedState], ?_, ⟨_, rfl⟩⟩ <;>
      simp [searchCropPrices, searchCropPricesTry, MarketState.emit, MarketState.setLoading,
        h1, requestsOf_append, requestsOf]
  | resolved p =>
    cases h2 : api (.getPriceTrends st.selectedCrop st.selectedState 30) with
    | rejected =>
      refine ⟨?_, ?_, ?_, [.getMarketPrices st.selectedCrop st.selectedState,
        .getPriceTrends st.selectedCrop st.selectedState 30], ?_, ⟨_, rfl⟩⟩ <;>
      simp [searchCropPrices, searchCropPricesTry, MarketState.emit, MarketState.setLoading,
        h1, h2, requestsOf_append, requestsOf]
    | resolved t =>
      have h3 : api (.getOptimalSellingTime st.selectedCrop st.selectedState) = .rejected := by
        rcases h with h | h | h
        · rw [h1] at h; cases h
        · rw [h2] at h; cases h
        · exact h
      refine ⟨?_, ?_, ?_, [.getMarketPrices st.selectedCrop st.selectedState,
        .getPriceTrends st.selectedCrop st.selectedState 30,
        .getOptimalSellingTime st.selectedCrop st.selectedState], ?_, List.prefix_refl _⟩ <;>
      simp [searchCropPrices, searchCropPricesTry, MarketState.emit, MarketState.setLoading,
        h1, h2, h3, requestsOf_append, requestsOf]

theorem fetchPriceData_failed (api : PriceCall → ApiResult JSValue) (st : PriceState)
    (h : api (.getPrices st.selectedCrop st.selectedLocation) = .rejected ∨
      api (.getPriceHistory st.selectedCrop st.selectedLocation) = .rejected ∨
      api (.getForecast st.selectedCrop st.selectedLocation) = .rejected) :
    (fetchPriceData api st).currentPrices = st.currentPrices ∧
    (fetchPriceData api st).priceHistory = st.priceHistory ∧
    (fetchPriceData api st).forecast = st.forecast ∧
    requestsOf (fetchPriceData api st).log = requestsOf st.log ++
      [.getPrices st.selectedCrop st.selectedLocation,
       .getPriceHistory st.selectedCrop st.selectedLocation,
       .getForecast st.selectedCrop st.selectedLocation] := by
  have hlog : ∀ s2 : PriceState,
      (fetchPriceDataTry api (st.setLoading true) = .error s2 →
        s2.currentPrices = st.currentPrices ∧ s2.priceHistory = st.priceHistory ∧
        s2.forecast = st.forecast ∧
        requestsOf s2.log = requestsOf st.log ++
          [.getPrices st.selectedCrop st.selectedLocation,
           .getPriceHistory st.selectedCrop st.selectedLocation,
           .getForecast st.selectedCrop st.selectedLocation]) := by
    intro s2 hs2
    have : s2 = (((st.setLoading true).emit
        (.request (.getPrices st.selectedCrop st.selectedLocation))).emit
        (.request (.getPriceHistory st.selectedCrop st.selectedLocation))).emit
        (.request (.getForecast st.selectedCrop st.selectedLocation)) := by
      simp only [fetchPriceDataTry] at hs2
      split at hs2
      · cases hs2
      · exact (Except.error.inj hs2).symm
    subst this
    simp [PriceState.emit, PriceState.setLoading, requestsOf_append, requestsOf]
  cases htry : fetchPriceDataTry api (st.setLoading true) with
  | error s2 =>
    obtain ⟨a, b, c, d⟩ := hlog s2 htry
    have e : fetchPriceData api st =
        (s2.emit (.consoleError (js "Price data fetch error:"))).setLoading false := by
      simp only [fetchPriceData, htry]
    rw [e]
    refine ⟨a, b, c, ?_⟩
    simp only [PriceState.emit, PriceState.setLoading, requestsOf_append, d]
    simp [requestsOf]
  | ok s2 =>
    exfalso
    simp only [fetchPriceDataTry] at htry
    split at htry
    · rename_i p1 p2 p3 e1 e2 e3
      have e1' : api (.getPrices st.selectedCrop st.selectedLocation) = .resolved p1 := e1
      have e2' : api (.getPriceHistory st.selectedCrop st.selectedLocation) = .resolved p2 := e2
      have e3' : api (.getForecast st.selectedCrop st.selectedLocation) = .resolved p3 := e3
      rcases h with h | h | h
      · rw [e1'] at h; cases h
      · rw [e2'] at h; cases h
      · rw [e3'] at h; cases h
    · cases htry

theorem fetchData_failed (api : Api) (st : AdminState) (h : api.readRejects st.activeTab) :
    (fetchData api st).data = st.data ∧
    ∃ call, requestsOf (fetchData api st).log = requestsOf st.log ++ [call] := by
  cases htab : st.activeTab <;> rw [htab] at h <;> simp only [Api.readRejects] at h
  · exact ⟨by simp [fetchData, fetchDataTry, AdminState.setLoading, AdminState.emit, htab,
      Tab.id, h], .getUserAnalytics, by simp [fetchData, fetchDataTry, AdminState.setLoading,
      AdminState.emit, htab, Tab.id, h, requestsOf_append, requestsOf]⟩
  · exact ⟨by simp [fetchData, fetchDataTry, AdminState.setLoading, AdminState.emit, htab,
      Tab.id, h], .getAll .crop, by simp [fetchData, fetchDataTry, AdminState.setLoading,
      AdminState.emit, htab, Tab.id, h, requestsOf_append, requestsOf]⟩
  · exact ⟨by simp [fetchData, fetchDataTry, AdminState.setLoading, AdminState.emit, htab,
      Tab.id, h], .getAll .disease, by simp [fetchData, fetchDataTry, AdminState.setLoading,
      AdminState.emit, htab, Tab.id, h, requestsOf_append, requestsOf]⟩
  · exact ⟨by simp [fetchData, fetchDataTry, AdminState.setLoading, AdminState.emit, htab,
      Tab.id, h], .getAll .costTemplate, by simp [fetchData, fetchDataTry,
      AdminState.setLoading, AdminState.emit, htab, Tab.id, h, requestsOf_append,
      requestsOf]⟩

/-- C18: a failed read leaves the held data unchanged and retries nothing.
If one of the three requests of `searchCropPrices` rejects, `marketData`,
`priceHistory` and `sellingRecommendation` keep their values and the requests
issued are an initial part of the three, each once; if one of the three requests
of `fetchPriceData` rejects, `currentPrices`, `priceHistory` and `forecast` keep
their values and the three requests were issued once each; if the request of
`fetchData` rejects, the data state is unchanged and one request was issued. -/
theorem failed_read_keeps_data
    (mapi : MarketCall → ApiResult JSValue) (mst : MarketState)
    (papi : PriceCall → ApiResult JSValue) (pst : PriceState)
    (api : Api) (st : AdminState)
    (hm : mapi (.getMarketPrices mst.selectedCrop mst.selectedState) = .rejected ∨
      mapi (.getPriceTrends mst.selectedCrop mst.selectedState 30) = .rejected ∨
      mapi (.getOptimalSellingTime mst.selectedCrop mst.selectedState) = .rejected)
    (hp : papi (.getPrices pst.selectedCrop pst.selectedLocation) = .rejected ∨
      papi (.getPriceHistory pst.selectedCrop pst.selectedLocation) = .rejected ∨
      papi (.getForecast pst.selectedCrop pst.selectedLocation) = .rejected)
    (ha : api.readRejects st.activeTab) :
    ((searchCropPrices mapi mst).marketData = mst.marketData ∧
      (searchCropPrices mapi mst).priceHistory = mst.priceHistory ∧
      (searchCropPrices mapi mst).sellingRecommendation = mst.sellingRecommendation ∧
      ∃ issued, requestsOf (searchCropPrices mapi mst).log = requestsOf mst.log ++ issued ∧
        issued <+: [.getMarketPrices mst.selectedCrop mst.selectedState,
          .getPriceTrends mst.selectedCrop mst.selectedState 30,
          .getOptimalSellingTime mst.selectedCrop mst.selectedState]) ∧
    ((fetchPriceData papi pst).currentPrices = pst.currentPrices ∧
      (fetchPriceData papi pst).priceHistory = pst.priceHistory ∧
      (fetchPriceData papi pst).forecast = pst.forecast ∧
      requestsOf (fetchPriceData papi pst).log = requestsOf pst.log ++
        [.getPrices pst.selectedCrop pst.selectedLocation,
         .getPriceHistory pst.selectedCrop pst.selectedLocation,
         .getForecast pst.selectedCrop pst.selectedLocation]) ∧
    ((fetchData api st).data = st.data ∧
      ∃ call, requestsOf (fetchData api st).log = requestsOf st.log ++ [call]) :=
  ⟨searchCropPrices_failed mapi mst hm, fetchPriceData_failed papi pst hp,
    fetchData_failed api st ha⟩

/-- C18, instance: with every backend down, the market screen, the price
tracker and the Crops tab of the admin panel keep what they held. -/
theorem failed_read_keeps_data_witness :
    (searchCropPrices (fun _ => .rejected) marketStart).marketData = .null ∧
    (fetchPriceData (fun _ => .rejected) priceStart).forecast = .object 2 [] ∧
    (fetchData downApi (adminWith .crops)).data.crops = [wheat, rice] :=
  have r := failed_read_keeps_data (fun _ => .rejected) marketStart (fun _ => .rejected)
    priceStart downApi (adminWith .crops) (Or.inl rfl) (Or.inl rfl) rfl
  ⟨r.1.1, r.2.1.2.2.1, congrArg AdminData.crops r.2.2.1⟩

/-! ## Auth: settlement of the request -/

/-- C19: when `validate` passes and the login or signup request rejects,
`submit` sets the errors to exactly `{ submit: m }`, where `m` is the backend's
message when it is present and non-empty and `Authentication failed` otherwise;
the request was issued once, and the session user and the stored token are
unchanged. -/
theorem submit_rejected (backend : Request → Response) (st : AuthPage)
    (message : Option JSString) (hv : (validate st.mode st.form).2 = true)
    (hrej : backend (submitRequest st.mode st.form) = .rejected message) :
    (submit backend st).errors =
      [("submit", match message with
        | some (c :: m) => c :: m
        | _ => js "Authentication failed")] ∧
    (submit backend st).requests = st.requests ++ [submitRequest st.mode st.form] ∧
    (submit backend st).user = st.user ∧
    (submit backend st).token = st.token ∧
    (submit backend st).href = st.href := by
  have hm : submitMessage message =
      (match message with
        | some (c :: m) => c :: m
        | _ => js "Authentication failed") := by
    cases message with
    | none => rfl
    | some m => cases m <;> rfl
  have hs : submit backend st =
      { st with errors := [("submit", submitMessage message)], busy := false,
                requests := st.requests ++ [submitRequest st.mode st.form] } := by
    simp only [submit, hv, hrej, Bool.not_true, Bool.false_eq_true, if_false]
  rw [hs, hm]
  exact ⟨rfl, rfl, rfl, rfl, rfl⟩

/-- C19, instance: a well-formed login rejected with `Invalid credentials`
shows that message and leaves the session empty. -/
theorem submit_rejected_witness :
    (submit rejectAll loginFilled).errors = [("submit", js "Invalid credentials")] ∧
    (submit rejectAll loginFilled).requests = [.login (js "a@b.c") (js "abc123")] ∧
    (submit rejectAll loginFilled).token = none :=
  have r := submit_rejected rejectAll loginFilled (some (js "Invalid credentials"))
    (by decide) rfl
  ⟨r.1.trans (by decide), r.2.1, r.2.2.2.1⟩

/-- C20: when `validate` passes and the login or signup request resolves,
`submit` sets the session user to the returned user record, stores the returned
token in the `token` entry of the storage, and sets the location to
`/dashboard`. -/
theorem submit_resolved (backend : Request → Response) (st : AuthPage)
    (user : User) (token : JSString) (hv : (validate st.mode st.form).2 = true)
    (hres : backend (submitRequest st.mode st.form) = .resolved user token) :
    (submit backend st).user = some user ∧
    (submit backend st).token = some token ∧
    (submit backend st).href = some "/dashboard" ∧
    (submit backend st).requests = st.requests ++ [submitRequest st.mode st.form] := by
  simp [submit, hv, hres]

/-- C20, instance: a well-formed login accepted by the backend. -/
theorem submit_resolved_witness :
    (submit acceptAll loginFilled).user = some ⟨some (js "user")⟩ ∧
    (submit acceptAll loginFilled).token = some (js "tok") ∧
    (submit acceptAll loginFilled).href = some "/dashboard" :=
  have r := submit_resolved acceptAll loginFilled ⟨some (js "user")⟩ (js "tok")
    (by decide) rfl
  ⟨r.1, r.2.1, r.2.2.1⟩

/-! ## Header: logout and links -/

/-- C21: `handleLogout` invokes the session store's `logout`, closes the
profile menu and sets the location to `/`; with the `logout` of the session
store the client storage is empty and the session has no user afterwards. -/
theorem handleLogout_clears (logoutFn : SessionStore → SessionStore) (st : HeaderState) :
    (handleLogout logoutFn st).session = logoutFn st.session ∧
    (handleLogout logoutFn st).profileOpen = false ∧
    (handleLogout logoutFn st).href = some "/" ∧
    (handleLogout logout st).session.storage = [] ∧
    (handleLogout logout st).session.user = none ∧
    screenAt "/" = some .Home ∧
    (routes.find? (fun r => r.path = "/")).map (fun r => r.element.access) = some .pub :=
  ⟨rfl, rfl, rfl, rfl, rfl, by decide, by decide⟩

/-! ## Admin panel: delete by type -/

/-- C23: for the type of an entity (`crop`, `disease`, `template`), an accepted
confirmation and a delete request that resolves, `handleDelete` keeps in that
entity's list exactly the items whose `_id` is not strictly equal to `id`, in
their previous order, and leaves the other two lists and the analytics
unchanged. -/
theorem handleDelete_resolved (api : Api) (id : JSValue) (e : Entity) (st : AdminState)
    (hres : api.delete e id = .resolved ()) :
    (handleDelete api true id e.deleteType st).data.list e =
      (st.data.list e).filter (fun item => !(item.get "_id").strictEq id) ∧
    (∀ item, item ∈ (handleDelete api true id e.deleteType st).data.list e ↔
      item ∈ st.data.list e ∧ (item.get "_id").strictEq id = false) ∧
    ((handleDelete api true id e.deleteType st).data.list e).Sublist (st.data.list e) ∧
    (∀ e2, e2 ≠ e → (handleDelete api true id e.deleteType st).data.list e2 =
      st.data.list e2) ∧
    (handleDelete api true id e.deleteType st).data.analytics = st.data.analytics := by
  have hd : (handleDelete api true id e.deleteType st).data = st.data.setList e
      ((st.data.list e).filter (fun item => !(item.get "_id").strictEq id)) := by
    cases e <;>
      simp [handleDelete, deleteCase, Entity.deleteType, AdminState.emit, hres]
  have hl : (handleDelete api true id e.deleteType st).data.list e =
      (st.data.list e).filter (fun item => !(item.get "_id").strictEq id) := by
    rw [hd]; cases e <;> rfl
  refine ⟨hl, ?_, ?_, ?_, ?_⟩
  · intro item
    rw [hl]
    simp [List.mem_filter]
  · rw [hl]; exact List.filter_sublist _
  · intro e2 hne
    rw [hd]
    cases e <;> cases e2 <;> first | rfl | exact absurd rfl hne
  · rw [hd]; cases e <;> rfl

/-- C23, instance: deleting `c1` with type `crop` leaves Rice in the crops and
does not touch the diseases. -/
theorem handleDelete_resolved_witness :
    (handleDelete echoApi true (.string (js "c1")) "crop" (adminWith .crops)).data.list
      .crop = [rice] ∧
    (handleDelete echoApi true (.string (js "c1")) "crop" (adminWith .crops)).data.list
      .disease = [wheat, rice] :=
  have r := handleDelete_resolved echoApi (.string (js "c1")) .crop (adminWith .crops) rfl
  ⟨r.1.trans (by decide), r.2.2.2.1 .disease (by decide)⟩

/-! ## Auth: login mode -/

theorem ErrorMap.set_ne_nil (e : ErrorMap) (k : String) (v : JSString) : e.set k v ≠ [] := by
  cases e with
  | nil => simp [ErrorMap.set]
  | cons kv e =>
    obtain ⟨k0, v0⟩ := kv
    simp only [ErrorMap.set]
    split_ifs <;> simp

theorem validate_login_true_iff (form : Form) :
    (validate .login form).2 = true ↔
      (truthy (trim form.email) = true ∧ emailRe.test form.email = true) ∧
      (truthy form.password = true ∧ ¬ form.password.length < 6) := by
  have hv : (validate .login form).2 =
      ((checkPassword form (checkEmail form [])).keys.length == 0) := rfl
  rw [hv]
  cases h1 : truthy (trim form.email) <;> cases h2 : emailRe.test form.email <;>
    cases h3 : truthy form.password <;> by_cases h4 : form.password.length < 6 <;>
    simp [checkPassword, checkEmail, h1, h2, h3, h4, ErrorMap.set_ne_nil, ErrorMap.keys]

theorem truthy_trim_of_matches {s : JSString} (h : MatchesEmailPattern s) :
    truthy (trim s) = true := by
  obtain ⟨a, b, c, rfl, -⟩ := h
  exact truthy_trim_of_mem (x := 0x40) (by simp) (by decide)

/-- C24: in login mode `validate` returns true exactly when the email matches
`^[^\s@]+@[^\s@]+\.[^\s@]+$` and the password has at least 6 code units, so its
result is the same for two forms with the same email and password; when it
returns true, `submit` issues exactly one request, a login carrying the email
and the password only. -/
theorem login_validate_iff (backend : Request → Response) (st : AuthPage)
    (hmode : st.mode = .login) :
    ((validate st.mode st.form).2 = true ↔
      MatchesEmailPattern st.form.email ∧ 6 ≤ st.form.password.length) ∧
    (∀ form2 : Form, form2.email = st.form.email → form2.password = st.form.password →
      (validate .login form2).2 = (validate st.mode st.form).2) ∧
    ((validate st.mode st.form).2 = true →
      (submit backend st).requests =
        st.requests ++ [.login st.form.email st.form.password]) := by
  have hiff : ∀ form : Form, (validate .login form).2 = true ↔
      MatchesEmailPattern form.email ∧ 6 ≤ form.password.length := by
    intro form
    rw [validate_login_true_iff, emailRe_test_iff]
    constructor
    · rintro ⟨⟨-, hm⟩, -, hlen⟩
      exact ⟨hm, Nat.le_of_not_lt hlen⟩
    · rintro ⟨hm, hlen⟩
      refine ⟨⟨truthy_trim_of_matches hm, hm⟩, ?_, Nat.not_lt.mpr hlen⟩
      cases hp : form.password with
      | nil => rw [hp] at hlen; simp at hlen
      | cons c t => rfl
  rw [hmode]
  refine ⟨hiff st.form, ?_, ?_⟩
  · intro form2 he hp
    have h1 := hiff form2
    have h2 := hiff st.form
    rw [he, hp] at h1
    cases hv2 : (validate .login form2).2 <;> cases hv : (validate .login st.form).2
    · rfl
    · exact absurd (h1.mpr (h2.mp hv)) (by simp [hv2])
    · exact absurd (h2.mpr (h1.mp hv2)) (by simp [hv])
    · rfl
  · intro hv
    have hv2 : (validate st.mode st.form).2 = true := by rw [hmode]; exact hv
    cases hb : backend (.login st.form.email st.form.password) <;>
      simp [submit, hv, hb, submitRequest, hmode]

/-- C24, instance: the filled login page passes `validate` and sends one login
request with its email and password. -/
theorem login_validate_iff_witness :
    (validate .login loginFilled.form).2 = true ∧
    (submit acceptAll loginFilled).requests = [.login (js "a@b.c") (js "abc123")] :=
  have r := login_validate_iff acceptAll loginFilled rfl
  ⟨by decide, r.2.2 (by decide)⟩

/-! ## Defects of the data screens and of the navigation -/

theorem filteredData_costTemplates (eng : Engine) (st : AdminState)
    (htab : st.activeTab = .costTemplates) : filteredData eng st = .ok [] := by
  cases hq : truthy st.searchQuery <;>
    simp [filteredData, htab, Tab.id, AdminData.prop, hq, filterItems]

/-- C25, evaluated: after `fetchData` has fetched the single record Wheat, an
empty query shows it on the Crops and Diseases tabs, but on the Cost Templates
tab `filteredData` returns the empty list although `data.costTemplates` holds
the record: the list is stored under `costTemplates` and read under the tab id
`cost-templates`. -/
theorem filteredData_misses_cost_templates :
    filteredData asciiEngine (fetchData wheatApi (adminEmpty .crops)) = .ok [wheat] ∧
    filteredData asciiEngine (fetchData wheatApi (adminEmpty .diseases)) = .ok [wheat] ∧
    (fetchData wheatApi (adminEmpty .costTemplates)).data.costTemplates = [wheat] ∧
    (fetchData wheatApi (adminEmpty .costTemplates)).searchQuery = [] ∧
    filteredData asciiEngine (fetchData wheatApi (adminEmpty .costTemplates)) = .ok [] := by
  refine ⟨rfl, rfl, rfl, rfl, rfl⟩

theorem clickPopularCrop_first_request (api : MarketCall → ApiResult JSValue)
    (value : JSString) (st : MarketState) :
    ∃ rest, requestsOf (clickPopularCrop api value st).log =
      requestsOf st.log ++ .getMarketPrices st.selectedCrop st.selectedState :: rest := by
  cases h1 : api (.getMarketPrices st.selectedCrop st.selectedState) with
  | rejected =>
    exact ⟨[], by simp [clickPopularCrop, searchCropPrices, searchCropPricesTry,
      MarketState.emit, MarketState.setLoading, h1, requestsOf_append, requestsOf]⟩
  | resolved p =>
    cases h2 : api (.getPriceTrends st.selectedCrop st.selectedState 30) with
    | rejected =>
      exact ⟨[.getPriceTrends st.selectedCrop st.selectedState 30], by
        simp [clickPopularCrop, searchCropPrices, searchCropPricesTry, MarketState.emit,
          MarketState.setLoading, h1, h2, requestsOf_append, requestsOf]⟩
    | resolved t =>
      cases h3 : api (.getOptimalSellingTime st.selectedCrop st.selectedState) <;>
      exact ⟨[.getPriceTrends st.selectedCrop st.selectedState 30,
        .getOptimalSellingTime st.selectedCrop st.selectedState], by
        simp [clickPopularCrop, searchCropPrices, searchCropPricesTry, MarketState.emit,
          MarketState.setLoading, h1, h2, h3, requestsOf_append, requestsOf]⟩

/-- C26, evaluated: on the freshly mounted market screen (crop `wheat`),
clicking the Rice button sends the three requests with crop `wheat`, the crop
of the render in which the button was clicked; `rice` only becomes the selected
crop afterwards. -/
theorem clickPopularCrop_uses_previous_crop :
    js "rice" ∈ popularCrops ∧
    marketStart.selectedCrop = js "wheat" ∧
    requestsOf (clickPopularCrop marketUp (js "rice") marketStart).log =
      [.getMarketPrices (js "wheat") (js "Delhi"),
       .getPriceTrends (js "wheat") (js "Delhi") 30,
       .getOptimalSellingTime (js "wheat") (js "Delhi")] ∧
    (clickPopularCrop marketUp (js "rice") marketStart).selectedCrop = js "rice" := by
  refine ⟨by decide, by decide, by decide, by decide⟩

/-- C28, evaluated: of the link targets rendered by the header, `/favorites`
and `/history` have no route and land on the not-found screen; every other
target, `/auth?mode=signup` included, has a screen of its own. -/
theorem header_links_not_found :
    "/favorites" ∈ headerLinks ∧ "/history" ∈ headerLinks ∧
    screenAt "/favorites" = some .NotFound ∧
    screenAt "/history" = some .NotFound ∧
    screenAt "/auth?mode=signup" = some .Auth ∧
    headerLinks.filter (fun h => screenAt h = some .NotFound) =
      ["/favorites", "/history"] := by
  refine ⟨by decide, by decide, by decide, by decide, by decide, by decide⟩

/-- C29, evaluated: the Sign Up link of the header points to
`/auth?mode=signup`, and the Auth page mounted there, as at any URL, starts in
login mode. -/
theorem mountAuth_ignores_url :
    "/auth?mode=signup" ∈ headerLinks ∧
    screenAt "/auth?mode=signup" = some .Auth ∧
    (mountAuth "/auth?mode=signup").mode = .login ∧
    ∀ href : String, (mountAuth href).mode = .login := by
  refine ⟨by decide, by decide, rfl, fun _ => rfl⟩

/-- C30, evaluated: with a non-empty query, a crop whose `scientificName` is
`null`, or `undefined`, makes `filteredData` throw a TypeError; a crop that
simply lacks the property is filtered without error. -/
theorem filteredData_raises :
    filteredData asciiEngine
      { adminWith .crops with
        searchQuery := js "x",
        data := { (adminWith .crops).data with crops := [wheatNoScience] } } =
      .error .typeError ∧
    filteredData asciiEngine
      { adminWith .crops with
        searchQuery := js "x",
        data := { (adminWith .crops).data with
          crops := [[("name", .string (js "Wheat")), ("scientificName", .undefined)]] } } =
      .error .typeError ∧
    filteredData asciiEngine { adminWith .crops with searchQuery := js "x" } = .ok [] := by
  refine ⟨rfl, rfl, rfl⟩

/-! ## Loading flag of the read operations -/

theorem fetchData_bracket (api : Api) (st : AdminState) :
    LoadingBracket st.log (fetchData api st).log ∧ (fetchData api st).loading = false := by
  refine ⟨?_, rfl⟩
  cases htab : st.activeTab
  · cases h : api.getUserAnalytics
    · exact ⟨[.request .getUserAnalytics], by
        simp [fetchData, fetchDataTry, AdminState.setLoading, AdminState.emit, htab, Tab.id, h],
        by simp⟩
    · exact ⟨[.request .getUserAnalytics, .consoleError (js "Data fetch error:")], by
        simp [fetchData, fetchDataTry, AdminState.setLoading, AdminState.emit, htab, Tab.id, h],
        by simp⟩
  · cases h : api.getAll .crop
    · exact ⟨[.request (.getAll .crop)], by
        simp [fetchData, fetchDataTry, AdminState.setLoading, AdminState.emit, htab, Tab.id, h],
        by simp⟩
    · exact ⟨[.request (.getAll .crop), .consoleError (js "Data fetch error:")], by
        simp [fetchData, fetchDataTry, AdminState.setLoading, AdminState.emit, htab, Tab.id, h],
        by simp⟩
  · cases h : api.getAll .disease
    · exact ⟨[.request (.getAll .disease)], by
        simp [fetchData, fetchDataTry, AdminState.setLoading, AdminState.emit, htab, Tab.id, h],
        by simp⟩
    · exact ⟨[.request (.getAll .disease), .consoleError (js "Data fetch error:")], by
        simp [fetchData, fetchDataTry, AdminState.setLoading, AdminState.emit, htab, Tab.id, h],
        by simp⟩
  · cases h : api.getAll .costTemplate
    · exact ⟨[.request (.getAll .costTemplate)], by
        simp [fetchData, fetchDataTry, AdminState.setLoading, AdminState.emit, htab, Tab.id, h],
        by simp⟩
    · exact ⟨[.request (.getAll .costTemplate), .consoleError (js "Data fetch error:")], by
        simp [fetchData, fetchDataTry, AdminState.setLoading, AdminState.emit, htab, Tab.id, h],
        by simp⟩
  · exact ⟨[], by
      simp [fetchData, fetchDataTry, AdminState.setLoading, AdminState.emit, htab, Tab.id],
      by simp⟩
  · exact ⟨[], by
      simp [fetchData, fetchDataTry, AdminState.setLoading, AdminState.emit, htab, Tab.id],
      by simp⟩

theorem searchCropPrices_bracket (api : MarketCall → ApiResult JSValue) (st : MarketState) :
    LoadingBracket st.log (searchCropPrices api st).log ∧
    (searchCropPrices api st).loading = false := by
  refine ⟨?_, rfl⟩
  cases h1 : api (.getMarketPrices st.selectedCrop st.selectedState) with
  | rejected =>
    exact ⟨[.request (.getMarketPrices st.selectedCrop st.selectedState),
      .consoleError (js "Market data fetch error:")], by
      simp [searchCropPrices, searchCropPricesTry, MarketState.emit, MarketState.setLoading, h1],
      by simp⟩
  | resolved p =>
    cases h2 : api (.getPriceTrends st.selectedCrop st.selectedState 30) with
    | rejected =>
      exact ⟨[.request (.getMarketPrices st.selectedCrop st.selectedState),
        .request (.getPriceTrends st.selectedCrop st.selectedState 30),
        .consoleError (js "Market data fetch error:")], by
        simp [searchCropPrices, searchCropPricesTry, MarketState.emit,
          MarketState.setLoading, h1, h2],
        by simp⟩
    | resolved t =>
      cases h3 : api (.getOptimalSellingTime st.selectedCrop st.selectedState) with
      | rejected =>
        exact ⟨[.request (.getMarketPrices st.selectedCrop st.selectedState),
          .request (.getPriceTrends st.selectedCrop st.selectedState 30),
          .request (.getOptimalSellingTime st.selectedCrop st.selectedState),
          .consoleError (js "Market data fetch error:")], by
          simp [searchCropPrices, searchCropPricesTry, MarketState.emit,
            MarketState.setLoading, h1, h2, h3],
          by simp⟩
      | resolved r =>
        exact ⟨[.request (.getMarketPrices st.selectedCrop st.selectedState),
          .request (.getPriceTrends st.selectedCrop st.selectedState 30),
          .request (.getOptimalSellingTime st.selectedCrop st.selectedState)], by
          simp [searchCropPrices, searchCropPricesTry, MarketState.emit,
            MarketState.setLoading, h1, h2, h3],
          by simp⟩

theorem fetchPriceData_bracket (api : PriceCall → ApiResult JSValue) (st : PriceState) :
    LoadingBracket st.log (fetchPriceData api st).log ∧
    (fetchPriceData api st).loading = false := by
  refine ⟨?_, rfl⟩
  cases htry : fetchPriceDataTry api (st.setLoading true) with
  | error s2 =>
    have hs : s2 = (((st.setLoading true).emit
        (.request (.getPrices st.selectedCrop st.selectedLocation))).emit
        (.request (.getPriceHistory st.selectedCrop st.selectedLocation))).emit
        (.request (.getForecast st.selectedCrop st.selectedLocation)) := by
      simp only [fetchPriceDataTry] at htry
      split at htry
      · cases htry
      · exact (Except.error.inj htry).symm
    have e : fetchPriceData api st =
        (s2.emit (.consoleError (js "Price data fetch error:"))).setLoading false := by
      simp only [fetchPriceData, htry]
    rw [e, hs]
    exact ⟨[.request (.getPrices st.selectedCrop st.selectedLocation),
      .request (.getPriceHistory st.selectedCrop st.selectedLocation),
      .request (.getForecast st.selectedCrop st.selectedLocation),
      .consoleError (js "Price data fetch error:")], by
      simp [PriceState.emit, PriceState.setLoading], by simp⟩
  | ok s2 =>
    have hs : s2.log = ((((st.setLoading true).emit
        (.request (.getPrices st.selectedCrop st.selectedLocation))).emit
        (.request (.getPriceHistory st.selectedCrop st.selectedLocation))).emit
        (.request (.getForecast st.selectedCrop st.selectedLocation))).log := by
      simp only [fetchPriceDataTry] at htry
      split at htry
      · cases htry; rfl
      · cases htry
    have e : fetchPriceData api st = s2.setLoading false := by
      simp only [fetchPriceData, htry]
    rw [e]
    exact ⟨[.request (.getPrices st.selectedCrop st.selectedLocation),
      .request (.getPriceHistory st.selectedCrop st.selectedLocation),
      .request (.getForecast st.selectedCrop st.selectedLocation)], by
      simp [PriceState.emit, PriceState.setLoading, hs], by simp⟩

/-- C22: whatever the backend answers (every request resolving, or one
rejecting), each of `fetchData`, `fetchPriceData` and `searchCropPrices`
extends the log by `setLoading(true)`, then its requests and at most a
`console.error`, without any other `setLoading`, then `setLoading(false)`; so
loading is set before the first request, stays set while requests are pending,
and is false when the operation has completed. -/
theorem read_brackets_loading (api : Api) (st : AdminState)
    (papi : PriceCall → ApiResult JSValue) (pst : PriceState)
    (mapi : MarketCall → ApiResult JSValue) (mst : MarketState) :
    (LoadingBracket st.log (fetchData api st).log ∧ (fetchData api st).loading = false) ∧
    (LoadingBracket pst.log (fetchPriceData papi pst).log ∧
      (fetchPriceData papi pst).loading = false) ∧
    (LoadingBracket mst.log (searchCropPrices mapi mst).log ∧
      (searchCropPrices mapi mst).loading = false) :=
  ⟨fetchData_bracket api st, fetchPriceData_bracket papi pst,
    searchCropPrices_bracket mapi mst⟩

/-! ## Auth: the crop checkboxes -/

theorem onChange_checkbox_form (ev : ChangeEvent) (st : AuthPage) (ht : ev.type = "checkbox") :
    (onChange ev st).form =
      { st.form with
        primaryCrops :=
          if ev.checked then st.form.primaryCrops ++ [ev.value]
          else st.form.primaryCrops.filter (fun c => c ≠ ev.value) } := by
  simp [onChange, ht]

theorem filter_ne_append_self (l : List JSString) (c : JSString) (h : c ∉ l) :
    (l ++ [c]).filter (fun x => x ≠ c) = l := by
  have h1 : l.filter (fun x => decide (x ≠ c)) = l := by
    rw [List.filter_eq_self]
    intro x hx
    have : x ≠ c := fun hxc => h (hxc ▸ hx)
    simpa using this
  have h2 : [c].filter (fun x => decide (x ≠ c)) = [] := by simp
  rw [List.filter_append, h1, h2, List.append_nil]

theorem onChanges_invariant (evs : List ChangeEvent) (st : AuthPage)
    (hnd : st.form.primaryCrops.Nodup) (h : admissible evs st = true) :
    (onChanges evs st).form.primaryCrops.Nodup ∧
    (onChanges evs st).form =
      { st.form with primaryCrops := (onChanges evs st).form.primaryCrops } := by
  induction evs generalizing st with
  | nil => exact ⟨hnd, rfl⟩
  | cons ev evs ih =>
    simp only [admissible, Bool.and_eq_true, decide_eq_true_eq] at h
    obtain ⟨⟨ht, hmem⟩, hrest⟩ := h
    have hf := onChange_checkbox_form ev st ht
    have hnd2 : (onChange ev st).form.primaryCrops.Nodup := by
      rw [hf]
      cases hc : ev.checked with
      | true =>
        simp only [hc, if_true, decide_eq_true_eq] at hmem
        simp only [if_true]
        exact List.Nodup.append hnd (List.nodup_singleton _) (by simpa using hmem)
      | false =>
        simp only [Bool.false_eq_true, if_false]
        exact hnd.filter _
    obtain ⟨h1, h2⟩ := ih (onChange ev st) hnd2 hrest
    refine ⟨h1, ?_⟩
    show (onChanges evs (onChange ev st)).form = _
    rw [h2, hf]
    rfl

/-- C27: from the initial Auth form, after any sequence of checkbox events in
which a box is checked only when its crop is absent from `primaryCrops` and
unchecked only when it is present, `primaryCrops` has no duplicate and every
other field still has its initial value. A check appends the crop at the end, an
uncheck removes every occurrence of it and keeps the rest in order, neither
changes another field, and a check followed by the uncheck of the same absent
crop restores the form. -/
theorem primaryCrops_nodup (mode : Mode) (evs : List ChangeEvent)
    (h : admissible evs (AuthPage.initial mode) = true) :
    (onChanges evs (AuthPage.initial mode)).form.primaryCrops.Nodup ∧
    (onChanges evs (AuthPage.initial mode)).form =
      { Form.initial with
        primaryCrops := (onChanges evs (AuthPage.initial mode)).form.primaryCrops } ∧
    (∀ (st : AuthPage) (n : String) (c : JSString),
      (onChange ⟨n, c, "checkbox", true⟩ st).form =
        { st.form with primaryCrops := st.form.primaryCrops ++ [c] }) ∧
    (∀ (st : AuthPage) (n : String) (c : JSString),
      (onChange ⟨n, c, "checkbox", false⟩ st).form =
        { st.form with primaryCrops := st.form.primaryCrops.filter (fun x => x ≠ c) } ∧
      c ∉ (onChange ⟨n, c, "checkbox", false⟩ st).form.primaryCrops) ∧
    (∀ (st : AuthPage) (n : String) (c : JSString), c ∉ st.form.primaryCrops →
      (onChange ⟨n, c, "checkbox", false⟩ (onChange ⟨n, c, "checkbox", true⟩ st)).form =
        st.form) := by
  have hinv := onChanges_invariant evs (AuthPage.initial mode) List.nodup_nil h
  refine ⟨hinv.1, hinv.2, ?_, ?_, ?_⟩
  · intro st n c
    rw [onChange_checkbox_form _ _ rfl]
    rfl
  · intro st n c
    have hf : (onChange ⟨n, c, "checkbox", false⟩ st).form =
        { st.form with primaryCrops := st.form.primaryCrops.filter (fun x => x ≠ c) } := by
      rw [onChange_checkbox_form _ _ rfl]
      rfl
    refine ⟨hf, ?_⟩
    rw [hf]
    simp [List.mem_filter]
  · intro st n c hc
    rw [onChange_checkbox_form _ _ rfl, onChange_checkbox_form _ _ rfl]
    simp only [Bool.false_eq_true, if_false, if_true]
    rw [filter_ne_append_self _ _ hc]

/-- C27, instance: checking Wheat, checking Rice, then unchecking Wheat leaves
Rice alone in `primaryCrops`. -/
theorem primaryCrops_nodup_witness :
    admissible [cropBox "Wheat" true, cropBox "Rice" true, cropBox "Wheat" false]
      (AuthPage.initial .signup) = true ∧
    (onChanges [cropBox "Wheat" true, cropBox "Rice" true, cropBox "Wheat" false]
      (AuthPage.initial .signup)).form.primaryCrops = [js "Rice"] ∧
    (onChanges [cropBox "Wheat" true, cropBox "Rice" true, cropBox "Wheat" false]
      (AuthPage.initial .signup)).form.primaryCrops.Nodup :=
  ⟨by decide, by decide,
    (primaryCrops_nodup .signup
      [cropBox "Wheat" true, cropBox "Rice" true, cropBox "Wheat" false] (by decide)).1⟩

end Kishan
